import Mathlib

/-!
Shallow embedding of `src/main.rs` of micro-oc: a CLI overclocking tool with
subcommands `list`, `set` and `reset` that dispatches to an external NVIDIA
control library.  The library is modelled as an environment `Env` giving each
call's result; the program is a state-passing computation accumulating the
list of library calls made and the console output, and terminating normally,
with a clap usage error, or by panic (Rust `unwrap` failure / clap
`error.exit()` are the two abort channels).
-/

namespace MicroOc

/-- `nvapi::PState` as used by the program (only `P0` occurs in the source). -/
inductive PState where
  | P0
deriving DecidableEq, Repr

/-- `nvapi::ClockDomain` as used by the program. -/
inductive ClockDomain where
  | Graphics
  | Memory
deriving DecidableEq, Repr

/-- A `(PState, ClockDomain, KilohertzDelta)` triple passed to `set_pstates`;
the `KilohertzDelta` payload is an `i32`, modelled as `Int`. -/
abbrev PstateEntry := PState × ClockDomain × Int

/-- `nvapi::PowerLimit`: only the `default` field (a `Percentage`) is read. -/
structure PowerLimit where
  default : Nat
deriving DecidableEq, Repr

/-- `nvapi::SensorLimit`: only the `default` field (a `Celsius`) is read. -/
structure SensorLimit where
  default : Int
deriving DecidableEq, Repr

/-- The fields of `nvapi::GpuInfo` the program reads. -/
structure GpuInfo where
  name : String
  vendor : String
  power_limits : List PowerLimit
  sensor_limits : List SensorLimit
deriving DecidableEq, Repr

/-- One library call as made by the program, with its arguments.  GPU handles
are modelled as natural numbers. -/
inductive LibCall where
  | nvInit
  | enumerate
  | info (g : Nat)
  | gpuId (g : Nat)
  | setPstates (g : Nat) (entries : List PstateEntry)
  | setPowerLimits (g : Nat) (limits : List Nat)
  | thermalLimitInfo (g : Nat)
  | setSensorLimits (g : Nat) (limits : List Int)
  | setVfpLock (g : Nat) (uv : Nat)
  | resetVfpLock (g : Nat)
deriving DecidableEq, Repr

/-- The external library, as an oracle: the result each call would return.
`Except.error` stands for an error `Status`. -/
structure Env where
  nvInit : Except Unit Unit
  enumerate : Except Unit (List Nat)
  info : Nat → Except Unit GpuInfo
  gpuId : Nat → Except Unit Nat
  setPstates : Nat → List PstateEntry → Except Unit Unit
  setPowerLimits : Nat → List Nat → Except Unit Unit
  thermalLimitInfo : Nat → Except Unit Nat
  setSensorLimits : Nat → List Int → Except Unit Unit
  setVfpLock : Nat → Nat → Except Unit Unit
  resetVfpLock : Nat → Except Unit Unit

/-- Whether the library answers the given call without error. -/
def callOk (env : Env) : LibCall → Bool
  | .nvInit => env.nvInit.isOk
  | .enumerate => env.enumerate.isOk
  | .info g => (env.info g).isOk
  | .gpuId g => (env.gpuId g).isOk
  | .setPstates g e => (env.setPstates g e).isOk
  | .setPowerLimits g l => (env.setPowerLimits g l).isOk
  | .thermalLimitInfo g => (env.thermalLimitInfo g).isOk
  | .setSensorLimits g l => (env.setSensorLimits g l).isOk
  | .setVfpLock g v => (env.setVfpLock g v).isOk
  | .resetVfpLock g => (env.resetVfpLock g).isOk

/-- Console output: `println!` lines and the one `cli_table` table. -/
structure TableData where
  titles : List String
  rows : List (List String)
deriving DecidableEq, Repr

inductive OutputItem where
  | line (s : String)
  | table (t : TableData)
deriving DecidableEq, Repr

/-- How the process ends: normal exit, clap usage error (`error.exit()`), or
panic (a failed `unwrap` or an out-of-bounds index). -/
inductive Outcome where
  | ok
  | usageError (msg : String)
  | panicked
deriving DecidableEq, Repr

inductive Abort where
  | usage (msg : String)
  | panicked
deriving DecidableEq, Repr

structure St where
  trace : List LibCall
  out : List OutputItem
deriving DecidableEq, Repr

/-- The program monad: state (call trace, console output) plus abort. -/
def M (α : Type) : Type := St → Except Abort α × St

def mPure {α : Type} (a : α) : M α := fun s => (Except.ok a, s)

def mBind {α β : Type} (x : M α) (f : α → M β) : M β := fun s =>
  match x s with
  | (Except.ok a, s') => f a s'
  | (Except.error e, s') => (Except.error e, s')

instance : Monad M where
  pure := mPure
  bind := mBind

theorem bind_eq_mBind {α β : Type} (x : M α) (f : α → M β) :
    x >>= f = mBind x f := rfl

theorem pure_eq_mPure {α : Type} (a : α) : (pure a : M α) = mPure a := rfl

/-- Make a library call: record it in the trace; a library error is
`unwrap`ped, i.e. the program panics. -/
def libCall {α : Type} (c : LibCall) (res : Except Unit α) : M α := fun s =>
  match res with
  | Except.ok a => (Except.ok a, ⟨s.trace ++ [c], s.out⟩)
  | Except.error _ => (Except.error Abort.panicked, ⟨s.trace ++ [c], s.out⟩)

def emit (item : OutputItem) : M Unit := fun s =>
  (Except.ok (), ⟨s.trace, s.out ++ [item]⟩)

def panicM {α : Type} : M α := fun s => (Except.error Abort.panicked, s)

def usageExit {α : Type} (msg : String) : M α := fun s =>
  (Except.error (Abort.usage msg), s)

/-- Rust slice indexing `l[i]`: panics when out of bounds. -/
def idxM {α : Type} (l : List α) (i : Nat) : M α :=
  match l[i]? with
  | some a => mPure a
  | none => panicM

/-! ### Decimal parsing, mirroring Rust `from_str_radix(v, 10)` -/

/-- `char::to_digit(10)`. -/
def digitVal (c : Char) : Option Nat :=
  if '0' ≤ c ∧ c ≤ '9' then some (c.toNat - 48) else none

/-- Accumulate a non-empty all-digit string into a number; `none` on a
non-digit or an empty digit sequence. -/
def parseNatDigits (cs : List Char) : Option Nat :=
  if cs.isEmpty then none
  else
    cs.foldl
      (fun acc c =>
        match acc, digitVal c with
        | some n, some d => some (n * 10 + d)
        | _, _ => none)
      (some 0)

/-- `uN::from_str_radix(s, 10)`: optional leading `+`, digits, result below
`bound`.  A leading `-` is rejected for unsigned types. -/
def parseUnsigned (s : String) (bound : Nat) : Option Nat :=
  let cs :=
    match s.toList with
    | '+' :: rest => rest
    | cs => cs
  match parseNatDigits cs with
  | some n => if n < bound then some n else none
  | none => none

/-- `iN::from_str_radix(s, 10)`: optional sign, digits, result in
`[lo, hi]`. -/
def parseSigned (s : String) (lo hi : Int) : Option Int :=
  let (neg, cs) :=
    match s.toList with
    | '-' :: rest => (true, rest)
    | '+' :: rest => (false, rest)
    | cs => (false, cs)
  match parseNatDigits cs with
  | some n =>
      let v : Int := if neg then -(n : Int) else (n : Int)
      if lo ≤ v ∧ v ≤ hi then some v else none
  | none => none

/-- `i32::from_str_radix(s, 10)`. -/
def parse_i32 (s : String) : Option Int :=
  parseSigned s (-(2 ^ 31)) (2 ^ 31 - 1)

/-- `u32::from_str_radix(s, 10)`. -/
def parse_u32 (s : String) : Option Nat := parseUnsigned s (2 ^ 32)

/-- `usize::from_str_radix(s, 10)` (64-bit target). -/
def parse_usize (s : String) : Option Nat := parseUnsigned s (2 ^ 64)

/-! ### `parse_arg` -/

/-- Result of `parse_arg`: panic (a value failed `from_str_radix(..).ok()
.unwrap()`), clap usage error (`error.exit()` on a count mismatch), or the
returned `Option<Vec<T>>`. -/
inductive ParseOut (α : Type) where
  | panicked
  | usage (msg : String)
  | res (r : Option (List α))
deriving DecidableEq

/-- `values.map(|v| T::from_str_radix(v, 10).ok().unwrap()).collect()`:
`none` when any value fails to parse (the Rust code panics there). -/
def parseValues {α : Type} (p : String → Option α) : List String → Option (List α)
  | [] => some []
  | v :: rest =>
    match p v with
    | some x => (parseValues p rest).map (fun l => x :: l)
    | none => none

/-- `parse_arg` from `main.rs`: absent flag gives `None`; every supplied
value is parsed (panicking on failure) before the count is compared with
`expected_len`; a mismatch exits with a `WrongNumberOfValues` usage error. -/
def parse_arg {α : Type} (p : String → Option α) (param : String)
    (vals : Option (List String)) (expected_len : Nat) : ParseOut α :=
  match vals with
  | none => ParseOut.res none
  | some vs =>
    match parseValues p vs with
    | none => ParseOut.panicked
    | some values =>
      if values.length ≠ expected_len then
        ParseOut.usage ("Wrong number of " ++ param ++ " values, got " ++
          toString values.length ++ ", expected " ++ toString expected_len)
      else ParseOut.res (some values)

def parseArgM {α : Type} (p : String → Option α) (param : String)
    (vals : Option (List String)) (expected_len : Nat) : M (Option (List α)) :=
  match parse_arg p param vals expected_len with
  | ParseOut.panicked => panicM
  | ParseOut.usage msg => usageExit msg
  | ParseOut.res r => mPure r

/-! ### CLI matches (what clap hands the program) -/

/-- The `set` subcommand's flags; each is `None` when the flag is absent,
otherwise the raw string values supplied. -/
structure SetMatches where
  gpuclock : Option (List String)
  memclock : Option (List String)
  plimit : Option (List String)
  tlimit : Option (List String)
  vlock : Option (List String)
deriving DecidableEq

inductive Subcmd where
  | noCmd
  | list
  | set (sm : SetMatches)
  | reset
deriving DecidableEq

/-- The top-level matches: the positional `ids` list and the subcommand. -/
structure Matches where
  ids : Option (List String)
  sub : Subcmd
deriving DecidableEq

/-! ### `select_gus` -/

/-- The body of `select_gus`'s map: parse each id (`unwrap` panics on a
non-number) and index `gpus` (panics when out of range). -/
def selectLoop (gpus : List Nat) : List String → M (List (Nat × Nat))
  | [] => mPure []
  | v :: rest => do
    let idx ←
      match parse_usize v with
      | some i => mPure i
      | none => panicM
    let g ← idxM gpus idx
    let tail ← selectLoop gpus rest
    mPure ((idx, g) :: tail)

/-- `select_gus` from `main.rs`: `matches.values_of("ids").unwrap()` panics
when the positional list is absent. -/
def select_gus (gpus : List Nat) (ids : Option (List String)) :
    M (List (Nat × Nat)) :=
  match ids with
  | none => panicM
  | some vs => selectLoop gpus vs

/-! ### The `set` loop body -/

/-- The `// gpu clock` block of the `set` loop body. -/
def gpuclockStep (env : Env) (gpuclock : Option (List Int))
    (i global_idx g : Nat) : M Unit :=
  match gpuclock with
  | some l => do
      let delta ← idxM l i
      emit (OutputItem.line ("Setting GPU #" ++ toString global_idx ++
        " graphics clock to KilohertzDelta(" ++ toString delta ++ ")"))
      libCall (LibCall.setPstates g [(PState.P0, ClockDomain.Graphics, delta)])
        (env.setPstates g [(PState.P0, ClockDomain.Graphics, delta)])
  | none => mPure ()

/-- The `// memory clock` block of the `set` loop body. -/
def memclockStep (env : Env) (memclock : Option (List Int))
    (i global_idx g : Nat) : M Unit :=
  match memclock with
  | some l => do
      let delta ← idxM l i
      emit (OutputItem.line ("Setting GPU #" ++ toString global_idx ++
        " memory clock to KilohertzDelta(" ++ toString delta ++ ")"))
      libCall (LibCall.setPstates g [(PState.P0, ClockDomain.Memory, delta)])
        (env.setPstates g [(PState.P0, ClockDomain.Memory, delta)])
  | none => mPure ()

/-- The `// power limit` block of the `set` loop body. -/
def plimitStep (env : Env) (plimit : Option (List Nat))
    (i global_idx g : Nat) : M Unit :=
  match plimit with
  | some l => do
      let p ← idxM l i
      emit (OutputItem.line ("Setting GPU #" ++ toString global_idx ++
        " power limit to " ++ toString p))
      libCall (LibCall.setPowerLimits g [p]) (env.setPowerLimits g [p])
  | none => mPure ()

/-- The `// temp limit` block of the `set` loop body: read the thermal
controller list, then apply the one temperature to every controller. -/
def tlimitStep (env : Env) (tlimit : Option (List Int))
    (i global_idx g : Nat) : M Unit :=
  match tlimit with
  | some l => do
      let controllers ← libCall (LibCall.thermalLimitInfo g)
        (env.thermalLimitInfo g)
      let t ← idxM l i
      emit (OutputItem.line ("Setting GPU #" ++ toString global_idx ++
        " temperature limit to Celsius(" ++ toString t ++ ")"))
      libCall (LibCall.setSensorLimits g (List.replicate controllers t))
        (env.setSensorLimits g (List.replicate controllers t))
  | none => mPure ()

/-- The `// voltage lock` block of the `set` loop body. -/
def vlockStep (env : Env) (vlock : Option (List Nat))
    (i global_idx g : Nat) : M Unit :=
  match vlock with
  | some l => do
      let v ← idxM l i
      emit (OutputItem.line ("Setting GPU #" ++ toString global_idx ++
        " lock voltage to Microvolts(" ++ toString v ++ ")"))
      libCall (LibCall.setVfpLock g v) (env.setVfpLock g v)
  | none => mPure ()

/-- One iteration of the `set` loop in `main.rs`: for the `i`-th selected
GPU (`global_idx`, handle `g`), the five blocks run in order, each only when
its flag was supplied. -/
def setGpuStep (env : Env) (gpuclock memclock : Option (List Int))
    (plimit : Option (List Nat)) (tlimit : Option (List Int))
    (vlock : Option (List Nat)) (i global_idx g : Nat) : M Unit := do
  gpuclockStep env gpuclock i global_idx g
  memclockStep env memclock i global_idx g
  plimitStep env plimit i global_idx g
  tlimitStep env tlimit i global_idx g
  vlockStep env vlock i global_idx g

/-- `for (i, (global_idx, gpu)) in selected_gpus.iter().enumerate()`. -/
def setLoop (env : Env) (gpuclock memclock : Option (List Int))
    (plimit : Option (List Nat)) (tlimit : Option (List Int))
    (vlock : Option (List Nat)) : Nat → List (Nat × Nat) → M Unit
  | _, [] => mPure ()
  | i, (global_idx, g) :: rest => do
    setGpuStep env gpuclock memclock plimit tlimit vlock i global_idx g
    setLoop env gpuclock memclock plimit tlimit vlock (i + 1) rest

/-! ### The `reset` loop -/

/-- The clock deltas the `reset` loop writes: zero for `P0` Graphics and
Memory. -/
def resetDeltas : List PstateEntry :=
  [(PState.P0, ClockDomain.Graphics, 0), (PState.P0, ClockDomain.Memory, 0)]

/-- `for (i, gpu) in gpus.iter().enumerate()` in the `reset` arm: print the
progress line, zero the clock deltas, re-read the GPU info, restore the
default power and sensor limits, and reset the VFP lock. -/
def resetLoop (env : Env) : Nat → List Nat → M Unit
  | _, [] => mPure ()
  | i, g :: rest => do
    emit (OutputItem.line ("Resetting GPU #" ++ toString i))
    libCall (LibCall.setPstates g resetDeltas) (env.setPstates g resetDeltas)
    let inf ← libCall (LibCall.info g) (env.info g)
    libCall (LibCall.setPowerLimits g (inf.power_limits.map PowerLimit.default))
      (env.setPowerLimits g (inf.power_limits.map PowerLimit.default))
    libCall (LibCall.setSensorLimits g (inf.sensor_limits.map SensorLimit.default))
      (env.setSensorLimits g (inf.sensor_limits.map SensorLimit.default))
    libCall (LibCall.resetVfpLock g) (env.resetVfpLock g)
    resetLoop env (i + 1) rest

/-! ### The `list` rows -/

/-- `info.iter().zip(gpus.iter()).enumerate().map(..)`: one row per GPU,
reading the device id with `gpu.inner().gpu_id().unwrap()`. -/
def listRows (env : Env) : Nat → List (GpuInfo × Nat) → M (List (List String))
  | _, [] => mPure []
  | i, (inf, g) :: rest => do
    let gid ← libCall (LibCall.gpuId g) (env.gpuId g)
    let tail ← listRows env (i + 1) rest
    mPure (["GPU #" ++ toString i, inf.name, inf.vendor, toString gid] :: tail)

/-- The column titles of the `list` table. -/
def listTitles : List String := ["GPU Index", "Name", "Vendor", "Device ID"]

/-! ### `main` -/

/-- `gpus.iter().map(|gpu| Ok(gpu.info().unwrap())).collect::<Result<..>>()
.unwrap()`: read every GPU's info in order, panicking on the first error. -/
def infoLoop (env : Env) : List Nat → M (List GpuInfo)
  | [] => mPure []
  | g :: rest => do
    let inf ← libCall (LibCall.info g) (env.info g)
    let tail ← infoLoop env rest
    mPure (inf :: tail)

/-- `main` from `main.rs`: initialize the library, enumerate GPUs, read all
infos, then dispatch on the subcommand. -/
def mainRun (env : Env) (m : Matches) : M Unit := do
  libCall LibCall.nvInit env.nvInit
  let gpus ← libCall LibCall.enumerate env.enumerate
  let info ← infoLoop env gpus
  match m.sub with
  | Subcmd.noCmd => mPure ()
  | Subcmd.list => do
      let rows ← listRows env 0 (info.zip gpus)
      emit (OutputItem.table ⟨listTitles, rows⟩)
  | Subcmd.set sm => do
      let selected_gpus ← select_gus gpus m.ids
      let gpuclock ← parseArgM parse_i32 "gpuclock" sm.gpuclock selected_gpus.length
      let memclock ← parseArgM parse_i32 "memclock" sm.memclock selected_gpus.length
      let plimit ← parseArgM parse_u32 "plimit" sm.plimit selected_gpus.length
      let tlimit ← parseArgM parse_i32 "tlimit" sm.tlimit selected_gpus.length
      let vlock ← parseArgM parse_u32 "vlock" sm.vlock selected_gpus.length
      setLoop env gpuclock memclock plimit tlimit vlock 0 selected_gpus
  | Subcmd.reset => resetLoop env 0 gpus

/-- Run `main` from the empty state and classify how the process ended. -/
def runMain (env : Env) (m : Matches) :
    List LibCall × List OutputItem × Outcome :=
  match mainRun env m ⟨[], []⟩ with
  | (Except.ok _, s) => (s.trace, s.out, Outcome.ok)
  | (Except.error (Abort.usage msg), s) => (s.trace, s.out, Outcome.usageError msg)
  | (Except.error Abort.panicked, s) => (s.trace, s.out, Outcome.panicked)

/-! ### A fully successful library, described by pure data -/

/-- A device configuration for which every library call succeeds:
the enumerated GPU handles, each handle's info, device id, and number of
thermal controllers. -/
structure PureDev where
  gpus : List Nat
  infoF : Nat → GpuInfo
  gpuIdF : Nat → Nat
  thermalCount : Nat → Nat

/-- The environment in which every library call succeeds, answering from
`d`. -/
def okEnv (d : PureDev) : Env where
  nvInit := Except.ok ()
  enumerate := Except.ok d.gpus
  info := fun g => Except.ok (d.infoF g)
  gpuId := fun g => Except.ok (d.gpuIdF g)
  setPstates := fun _ _ => Except.ok ()
  setPowerLimits := fun _ _ => Except.ok ()
  thermalLimitInfo := fun g => Except.ok (d.thermalCount g)
  setSensorLimits := fun _ _ => Except.ok ()
  setVfpLock := fun _ _ => Except.ok ()
  resetVfpLock := fun _ => Except.ok ()

/-! ### Expected traces and output (specification side) -/

/-- The calls every invocation makes before dispatching on the
subcommand. -/
def preludeTrace (gpus : List Nat) : List LibCall :=
  LibCall.nvInit :: LibCall.enumerate :: gpus.map LibCall.info

/-- The library calls one `reset` iteration makes for GPU handle `g`. -/
def perGpuReset (d : PureDev) (g : Nat) : List LibCall :=
  [LibCall.setPstates g resetDeltas,
   LibCall.info g,
   LibCall.setPowerLimits g ((d.infoF g).power_limits.map PowerLimit.default),
   LibCall.setSensorLimits g ((d.infoF g).sensor_limits.map SensorLimit.default),
   LibCall.resetVfpLock g]

def resetTrace (d : PureDev) : List Nat → List LibCall
  | [] => []
  | g :: rest => perGpuReset d g ++ resetTrace d rest

def resetOut : Nat → List Nat → List OutputItem
  | _, [] => []
  | i, _ :: rest => OutputItem.line ("Resetting GPU #" ++ toString i) :: resetOut (i + 1) rest

/-- The rows the `list` subcommand builds, one per GPU in order. -/
def listRowsSpec (d : PureDev) : Nat → List Nat → List (List String)
  | _, [] => []
  | i, g :: rest =>
    ["GPU #" ++ toString i, (d.infoF g).name, (d.infoF g).vendor,
      toString (d.gpuIdF g)] :: listRowsSpec d (i + 1) rest

/-- Calls of the gpu clock block when applied to the `i`-th selected GPU. -/
def gcCalls (gpuclock : Option (List Int)) (i g : Nat) : List LibCall :=
  match gpuclock with
  | some l => [LibCall.setPstates g [(PState.P0, ClockDomain.Graphics, l.getD i 0)]]
  | none => []

def mcCalls (memclock : Option (List Int)) (i g : Nat) : List LibCall :=
  match memclock with
  | some l => [LibCall.setPstates g [(PState.P0, ClockDomain.Memory, l.getD i 0)]]
  | none => []

def plCalls (plimit : Option (List Nat)) (i g : Nat) : List LibCall :=
  match plimit with
  | some l => [LibCall.setPowerLimits g [l.getD i 0]]
  | none => []

def tlCalls (d : PureDev) (tlimit : Option (List Int)) (i g : Nat) : List LibCall :=
  match tlimit with
  | some l => [LibCall.thermalLimitInfo g,
      LibCall.setSensorLimits g (List.replicate (d.thermalCount g) (l.getD i 0))]
  | none => []

def vlCalls (vlock : Option (List Nat)) (i g : Nat) : List LibCall :=
  match vlock with
  | some l => [LibCall.setVfpLock g (l.getD i 0)]
  | none => []

/-- The library calls one `set` iteration makes for the `i`-th selected GPU
(handle `g`), in the fixed order gpu clock, memory clock, power limit,
temperature limit, voltage lock. -/
def settingCallsAt (d : PureDev) (gpuclock memclock : Option (List Int))
    (plimit : Option (List Nat)) (tlimit : Option (List Int))
    (vlock : Option (List Nat)) (i g : Nat) : List LibCall :=
  gcCalls gpuclock i g ++ mcCalls memclock i g ++ plCalls plimit i g ++
    tlCalls d tlimit i g ++ vlCalls vlock i g

def gcLines (gpuclock : Option (List Int)) (i global_idx : Nat) : List OutputItem :=
  match gpuclock with
  | some l => [OutputItem.line ("Setting GPU #" ++ toString global_idx ++
      " graphics clock to KilohertzDelta(" ++ toString (l.getD i 0) ++ ")")]
  | none => []

def mcLines (memclock : Option (List Int)) (i global_idx : Nat) : List OutputItem :=
  match memclock with
  | some l => [OutputItem.line ("Setting GPU #" ++ toString global_idx ++
      " memory clock to KilohertzDelta(" ++ toString (l.getD i 0) ++ ")")]
  | none => []

def plLines (plimit : Option (List Nat)) (i global_idx : Nat) : List OutputItem :=
  match plimit with
  | some l => [OutputItem.line ("Setting GPU #" ++ toString global_idx ++
      " power limit to " ++ toString (l.getD i 0))]
  | none => []

def tlLines (tlimit : Option (List Int)) (i global_idx : Nat) : List OutputItem :=
  match tlimit with
  | some l => [OutputItem.line ("Setting GPU #" ++ toString global_idx ++
      " temperature limit to Celsius(" ++ toString (l.getD i 0) ++ ")")]
  | none => []

def vlLines (vlock : Option (List Nat)) (i global_idx : Nat) : List OutputItem :=
  match vlock with
  | some l => [OutputItem.line ("Setting GPU #" ++ toString global_idx ++
      " lock voltage to Microvolts(" ++ toString (l.getD i 0) ++ ")")]
  | none => []

/-- The progress lines one `set` iteration prints. -/
def settingLinesAt (gpuclock memclock : Option (List Int))
    (plimit : Option (List Nat)) (tlimit : Option (List Int))
    (vlock : Option (List Nat)) (i global_idx : Nat) : List OutputItem :=
  gcLines gpuclock i global_idx ++ mcLines memclock i global_idx ++
    plLines plimit i global_idx ++ tlLines tlimit i global_idx ++
    vlLines vlock i global_idx

def setTrace (d : PureDev) (gpuclock memclock : Option (List Int))
    (plimit : Option (List Nat)) (tlimit : Option (List Int))
    (vlock : Option (List Nat)) : Nat → List (Nat × Nat) → List LibCall
  | _, [] => []
  | i, (_, g) :: rest =>
    settingCallsAt d gpuclock memclock plimit tlimit vlock i g ++
      setTrace d gpuclock memclock plimit tlimit vlock (i + 1) rest

def setOut (gpuclock memclock : Option (List Int))
    (plimit : Option (List Nat)) (tlimit : Option (List Int))
    (vlock : Option (List Nat)) : Nat → List (Nat × Nat) → List OutputItem
  | _, [] => []
  | i, (global_idx, _) :: rest =>
    settingLinesAt gpuclock memclock plimit tlimit vlock i global_idx ++
      setOut gpuclock memclock plimit tlimit vlock (i + 1) rest

/-- The pure reading of `select_gus` when it does not panic: each id parses
as a `usize` that is in range of the enumerated list. -/
def selParse (gpus : List Nat) : List String → Option (List (Nat × Nat))
  | [] => some []
  | v :: rest =>
    match parse_usize v with
    | none => none
    | some k =>
      match gpus[k]? with
      | none => none
      | some g => (selParse gpus rest).map (fun l => (k, g) :: l)

/-- Every call recorded in `t` succeeded in `env`. -/
def TraceOk (env : Env) (t : List LibCall) : Prop :=
  ∀ c ∈ t, callOk env c = true

/-- Running `x` from a state whose trace is all-successful either keeps the
trace all-successful or ends in a panic. -/
def Preserves {α : Type} (env : Env) (x : M α) : Prop :=
  ∀ s : St, TraceOk env s.trace →
    TraceOk env (x s).2.trace ∨ (x s).1 = Except.error Abort.panicked

/-! ### Concrete devices and environments for witnesses -/

/-- A one-GPU device used for concrete witnesses. -/
def dev1 : PureDev where
  gpus := [0]
  infoF := fun _ => ⟨"GeForce RTX 3080", "NVIDIA", [⟨100⟩], [⟨83⟩]⟩
  gpuIdF := fun g => 4000 + g
  thermalCount := fun _ => 2

/-- A two-GPU device used for concrete witnesses. -/
def dev2 : PureDev where
  gpus := [0, 1]
  infoF := fun _ => ⟨"GeForce RTX 3080", "NVIDIA", [⟨100⟩], [⟨83⟩]⟩
  gpuIdF := fun g => 4000 + g
  thermalCount := fun _ => 2

/-- An environment whose initialization call fails. -/
def failInitEnv : Env where
  nvInit := Except.error ()
  enumerate := Except.ok []
  info := fun _ => Except.ok ⟨"", "", [], []⟩
  gpuId := fun _ => Except.ok 0
  setPstates := fun _ _ => Except.ok ()
  setPowerLimits := fun _ _ => Except.ok ()
  thermalLimitInfo := fun _ => Except.ok 0
  setSensorLimits := fun _ _ => Except.ok ()
  setVfpLock := fun _ _ => Except.ok ()
  resetVfpLock := fun _ => Except.ok ()

/-! ### Monad evaluation lemmas -/

theorem mBind_ok {α β : Type} {x : M α} {f : α → M β} {s s' : St} {a : α}
    (h : x s = (Except.ok a, s')) : mBind x f s = f a s' := by
  simp [mBind, h]

theorem mBind_err {α β : Type} {x : M α} {f : α → M β} {s s' : St} {e : Abort}
    (h : x s = (Except.error e, s')) : mBind x f s = (Except.error e, s') := by
  simp [mBind, h]

theorem libCall_ok {α : Type} {c : LibCall} {a : α} (s : St) :
    libCall c (Except.ok a) s = (Except.ok a, ⟨s.trace ++ [c], s.out⟩) := rfl

theorem libCall_err {α : Type} {c : LibCall} {e : Unit} (s : St) :
    libCall (α := α) c (Except.error e) s =
      (Except.error Abort.panicked, ⟨s.trace ++ [c], s.out⟩) := rfl

/-! ### Evaluation of the loops in the all-success environment -/

@[simp] theorem okEnv_nvInit (d : PureDev) :
    Env.nvInit (okEnv d) = Except.ok () := rfl
@[simp] theorem okEnv_enumerate (d : PureDev) :
    Env.enumerate (okEnv d) = Except.ok d.gpus := rfl
@[simp] theorem okEnv_info (d : PureDev) (g : Nat) :
    Env.info (okEnv d) g = Except.ok (d.infoF g) := rfl
@[simp] theorem okEnv_gpuId (d : PureDev) (g : Nat) :
    Env.gpuId (okEnv d) g = Except.ok (d.gpuIdF g) := rfl
@[simp] theorem okEnv_setPstates (d : PureDev) (g : Nat) (e : List PstateEntry) :
    Env.setPstates (okEnv d) g e = Except.ok () := rfl
@[simp] theorem okEnv_setPowerLimits (d : PureDev) (g : Nat) (l : List Nat) :
    Env.setPowerLimits (okEnv d) g l = Except.ok () := rfl
@[simp] theorem okEnv_thermalLimitInfo (d : PureDev) (g : Nat) :
    Env.thermalLimitInfo (okEnv d) g = Except.ok (d.thermalCount g) := rfl
@[simp] theorem okEnv_setSensorLimits (d : PureDev) (g : Nat) (l : List Int) :
    Env.setSensorLimits (okEnv d) g l = Except.ok () := rfl
@[simp] theorem okEnv_setVfpLock (d : PureDev) (g : Nat) (v : Nat) :
    Env.setVfpLock (okEnv d) g v = Except.ok () := rfl
@[simp] theorem okEnv_resetVfpLock (d : PureDev) (g : Nat) :
    Env.resetVfpLock (okEnv d) g = Except.ok () := rfl

theorem infoLoop_ok (d : PureDev) (l : List Nat) (s : St) :
    infoLoop (okEnv d) l s =
      (Except.ok (l.map d.infoF), ⟨s.trace ++ l.map LibCall.info, s.out⟩) := by
  induction l generalizing s with
  | nil => simp [infoLoop, mPure]
  | cons g rest ih =>
    simp [infoLoop, bind_eq_mBind, mBind, libCall, mPure, ih]

theorem resetLoop_ok (d : PureDev) (i : Nat) (l : List Nat) (s : St) :
    resetLoop (okEnv d) i l s =
      (Except.ok (), ⟨s.trace ++ resetTrace d l, s.out ++ resetOut i l⟩) := by
  induction l generalizing i s with
  | nil => simp [resetLoop, resetTrace, resetOut, mPure]
  | cons g rest ih =>
    simp [resetLoop, resetTrace, resetOut, perGpuReset, bind_eq_mBind, mBind,
      libCall, emit, mPure, ih]

theorem listRows_ok (d : PureDev) (i : Nat) (l : List Nat) (s : St) :
    listRows (okEnv d) i (List.zipWith Prod.mk (l.map d.infoF) l) s =
      (Except.ok (listRowsSpec d i l),
        ⟨s.trace ++ l.map LibCall.gpuId, s.out⟩) := by
  induction l generalizing i s with
  | nil => simp [listRows, listRowsSpec, mPure]
  | cons g rest ih =>
    simp [listRows, listRowsSpec, bind_eq_mBind, mBind, libCall, mPure, ih]

theorem getq_of_lt {α : Type} (l : List α) (i : Nat) (d0 : α)
    (h : i < l.length) : l[i]? = some (l.getD i d0) := by
  rw [List.getElem?_eq_getElem h, List.getD_eq_getElem?_getD,
    List.getElem?_eq_getElem h]
  rfl

theorem idxM_lt {α : Type} (l : List α) (i : Nat) (d0 : α)
    (h : i < l.length) : idxM l i = mPure (l.getD i d0) := by
  unfold idxM
  rw [getq_of_lt l i d0 h]

theorem gpuclockStep_ok (d : PureDev) (gc : Option (List Int))
    (i gidx g : Nat) (s : St) (h : ∀ l, gc = some l → i < l.length) :
    gpuclockStep (okEnv d) gc i gidx g s =
      (Except.ok (), ⟨s.trace ++ gcCalls gc i g, s.out ++ gcLines gc i gidx⟩) := by
  rcases gc with _ | l
  · simp [gpuclockStep, gcCalls, gcLines, mPure]
  · simp only [gpuclockStep, gcCalls, gcLines, bind_eq_mBind,
      idxM_lt l i 0 (h l rfl), okEnv_setPstates, mBind, mPure, emit, libCall]

theorem memclockStep_ok (d : PureDev) (mc : Option (List Int))
    (i gidx g : Nat) (s : St) (h : ∀ l, mc = some l → i < l.length) :
    memclockStep (okEnv d) mc i gidx g s =
      (Except.ok (), ⟨s.trace ++ mcCalls mc i g, s.out ++ mcLines mc i gidx⟩) := by
  rcases mc with _ | l
  · simp [memclockStep, mcCalls, mcLines, mPure]
  · simp only [memclockStep, mcCalls, mcLines, bind_eq_mBind,
      idxM_lt l i 0 (h l rfl), okEnv_setPstates, mBind, mPure, emit, libCall]

theorem plimitStep_ok (d : PureDev) (pl : Option (List Nat))
    (i gidx g : Nat) (s : St) (h : ∀ l, pl = some l → i < l.length) :
    plimitStep (okEnv d) pl i gidx g s =
      (Except.ok (), ⟨s.trace ++ plCalls pl i g, s.out ++ plLines pl i gidx⟩) := by
  rcases pl with _ | l
  · simp [plimitStep, plCalls, plLines, mPure]
  · simp only [plimitStep, plCalls, plLines, bind_eq_mBind,
      idxM_lt l i 0 (h l rfl), okEnv_setPowerLimits, mBind, mPure, emit, libCall]

theorem tlimitStep_ok (d : PureDev) (tl : Option (List Int))
    (i gidx g : Nat) (s : St) (h : ∀ l, tl = some l → i < l.length) :
    tlimitStep (okEnv d) tl i gidx g s =
      (Except.ok (), ⟨s.trace ++ tlCalls d tl i g, s.out ++ tlLines tl i gidx⟩) := by
  rcases tl with _ | l
  · simp [tlimitStep, tlCalls, tlLines, mPure]
  · simp only [tlimitStep, tlCalls, tlLines, bind_eq_mBind,
      idxM_lt l i 0 (h l rfl), okEnv_thermalLimitInfo, okEnv_setSensorLimits,
      mBind, mPure, emit, libCall, List.append_assoc, List.singleton_append]

theorem vlockStep_ok (d : PureDev) (vl : Option (List Nat))
    (i gidx g : Nat) (s : St) (h : ∀ l, vl = some l → i < l.length) :
    vlockStep (okEnv d) vl i gidx g s =
      (Except.ok (), ⟨s.trace ++ vlCalls vl i g, s.out ++ vlLines vl i gidx⟩) := by
  rcases vl with _ | l
  · simp [vlockStep, vlCalls, vlLines, mPure]
  · simp only [vlockStep, vlCalls, vlLines, bind_eq_mBind,
      idxM_lt l i 0 (h l rfl), okEnv_setVfpLock, mBind, mPure, emit, libCall]

theorem setGpuStep_ok (d : PureDev) (gc mc : Option (List Int))
    (pl : Option (List Nat)) (tl : Option (List Int)) (vl : Option (List Nat))
    (i gidx g : Nat) (s : St)
    (hgc : ∀ l, gc = some l → i < l.length)
    (hmc : ∀ l, mc = some l → i < l.length)
    (hpl : ∀ l, pl = some l → i < l.length)
    (htl : ∀ l, tl = some l → i < l.length)
    (hvl : ∀ l, vl = some l → i < l.length) :
    setGpuStep (okEnv d) gc mc pl tl vl i gidx g s =
      (Except.ok (), ⟨s.trace ++ settingCallsAt d gc mc pl tl vl i g,
        s.out ++ settingLinesAt gc mc pl tl vl i gidx⟩) := by
  simp only [setGpuStep, bind_eq_mBind]
  rw [mBind_ok (gpuclockStep_ok d gc i gidx g s hgc)]
  rw [mBind_ok (memclockStep_ok d mc i gidx g _ hmc)]
  rw [mBind_ok (plimitStep_ok d pl i gidx g _ hpl)]
  rw [mBind_ok (tlimitStep_ok d tl i gidx g _ htl)]
  rw [vlockStep_ok d vl i gidx g _ hvl]
  simp [settingCallsAt, settingLinesAt]

theorem setLoop_ok (d : PureDev) (gc mc : Option (List Int))
    (pl : Option (List Nat)) (tl : Option (List Int)) (vl : Option (List Nat))
    (sel : List (Nat × Nat)) (i : Nat)
    (hgc : ∀ l, gc = some l → i + sel.length ≤ l.length)
    (hmc : ∀ l, mc = some l → i + sel.length ≤ l.length)
    (hpl : ∀ l, pl = some l → i + sel.length ≤ l.length)
    (htl : ∀ l, tl = some l → i + sel.length ≤ l.length)
    (hvl : ∀ l, vl = some l → i + sel.length ≤ l.length) (s : St) :
    setLoop (okEnv d) gc mc pl tl vl i sel s =
      (Except.ok (), ⟨s.trace ++ setTrace d gc mc pl tl vl i sel,
        s.out ++ setOut gc mc pl tl vl i sel⟩) := by
  induction sel generalizing i s with
  | nil => simp [setLoop, setTrace, setOut, mPure]
  | cons p rest ih =>
    obtain ⟨gidx, g⟩ := p
    have hstep := setGpuStep_ok d gc mc pl tl vl i gidx g s
      (fun l hl => by have := hgc l hl; simp at this; omega)
      (fun l hl => by have := hmc l hl; simp at this; omega)
      (fun l hl => by have := hpl l hl; simp at this; omega)
      (fun l hl => by have := htl l hl; simp at this; omega)
      (fun l hl => by have := hvl l hl; simp at this; omega)
    simp only [setLoop, bind_eq_mBind]
    rw [mBind_ok hstep]
    rw [ih (i + 1)
      (fun l hl => by have := hgc l hl; simp at this ⊢; omega)
      (fun l hl => by have := hmc l hl; simp at this ⊢; omega)
      (fun l hl => by have := hpl l hl; simp at this ⊢; omega)
      (fun l hl => by have := htl l hl; simp at this ⊢; omega)
      (fun l hl => by have := hvl l hl; simp at this ⊢; omega)]
    simp [setTrace, setOut]

theorem selectLoop_ok (gpus : List Nat) (vs : List String)
    (sel : List (Nat × Nat)) (h : selParse gpus vs = some sel) (s : St) :
    selectLoop gpus vs s = (Except.ok sel, s) := by
  induction vs generalizing sel with
  | nil =>
    simp only [selParse, Option.some.injEq] at h
    subst h
    simp [selectLoop, mPure]
  | cons v rest ih =>
    rcases hp : parse_usize v with _ | k
    · simp [selParse, hp] at h
    · rcases hg : gpus[k]? with _ | g
      · simp [selParse, hp, hg] at h
      · rcases htail : selParse gpus rest with _ | tail
        · simp [selParse, hp, hg, htail] at h
        · simp only [selParse, hp, hg, htail, Option.map_some',
            Option.some.injEq] at h
          subst h
          simp [selectLoop, bind_eq_mBind, mBind, idxM, hp, hg, mPure,
            ih tail htail]

/-! ### parse_arg facts -/

theorem parse_arg_res_some_length {α : Type} (p : String → Option α)
    (param : String) (vals : Option (List String)) (n : Nat) (l : List α)
    (h : parse_arg p param vals n = ParseOut.res (some l)) : l.length = n := by
  rcases vals with _ | vs
  · simp [parse_arg] at h
  · rcases hv : parseValues p vs with _ | values
    · simp [parse_arg, hv] at h
    · by_cases hlen : values.length = n
      · simp [parse_arg, hv, hlen] at h
        subst h
        exact hlen
      · simp [parse_arg, hv, hlen] at h

/-! ### The panic invariant: a failed call in the trace forces a panic -/

theorem preserves_mPure {α : Type} (env : Env) (a : α) :
    Preserves env (mPure a) := fun _ hs => Or.inl hs

theorem preserves_panicM {α : Type} (env : Env) :
    Preserves env (panicM (α := α)) := fun _ _ => Or.inr rfl

theorem preserves_usageExit {α : Type} (env : Env) (msg : String) :
    Preserves env (usageExit (α := α) msg) := fun _ hs => Or.inl hs

theorem preserves_emit (env : Env) (item : OutputItem) :
    Preserves env (emit item) := fun _ hs => Or.inl hs

theorem preserves_mBind {α β : Type} {env : Env} {x : M α} {f : α → M β}
    (hx : Preserves env x) (hf : ∀ a, Preserves env (f a)) :
    Preserves env (mBind x f) := by
  intro s hs
  have hx' := hx s hs
  rcases hxs : x s with ⟨r, s'⟩
  rw [hxs] at hx'
  rcases r with e | a
  · simp only [mBind, hxs]
    rcases e with msg | _
    · left
      rcases hx' with h | h
      · exact h
      · cases h
    · right; rfl
  · have hs' : TraceOk env s'.trace := by
      rcases hx' with h | h
      · exact h
      · cases h
    have := hf a s' hs'
    simpa only [mBind, hxs] using this

theorem preserves_libCall {α : Type} (env : Env) (c : LibCall)
    (res : Except Unit α) (h : res.isOk = true → callOk env c = true) :
    Preserves env (libCall c res) := by
  intro s hs
  rcases res with e | a
  · right; rfl
  · left
    intro c' hc'
    rcases List.mem_append.mp hc' with h' | h'
    · exact hs c' h'
    · have hcc : c' = c := by simpa using h'
      subst hcc
      exact h rfl

theorem preserves_idxM {α : Type} (env : Env) (l : List α) (i : Nat) :
    Preserves env (idxM l i) := by
  rcases h : l[i]? with _ | a
  · intro s hs; right; simp [idxM, h, panicM]
  · intro s hs; left; simpa [idxM, h, mPure] using hs

theorem preserves_parseArgM {α : Type} (env : Env) (p : String → Option α)
    (param : String) (vals : Option (List String)) (n : Nat) :
    Preserves env (parseArgM p param vals n) := by
  unfold parseArgM
  rcases parse_arg p param vals n with _ | msg | r
  · exact preserves_panicM env
  · exact preserves_usageExit env msg
  · exact preserves_mPure env r

theorem preserves_infoLoop (env : Env) (l : List Nat) :
    Preserves env (infoLoop env l) := by
  induction l with
  | nil => exact preserves_mPure env []
  | cons g rest ih =>
    simp only [infoLoop, bind_eq_mBind]
    exact preserves_mBind (preserves_libCall env _ _ (fun h => h))
      (fun inf => preserves_mBind ih (fun tail => preserves_mPure env _))

theorem preserves_listRows (env : Env) (i : Nat) (l : List (GpuInfo × Nat)) :
    Preserves env (listRows env i l) := by
  induction l generalizing i with
  | nil => exact preserves_mPure env []
  | cons p rest ih =>
    obtain ⟨inf, g⟩ := p
    simp only [listRows, bind_eq_mBind]
    exact preserves_mBind (preserves_libCall env _ _ (fun h => h))
      (fun gid => preserves_mBind (ih (i + 1))
        (fun tail => preserves_mPure env _))

theorem preserves_selectLoop (env : Env) (gpus : List Nat) (vs : List String) :
    Preserves env (selectLoop gpus vs) := by
  induction vs with
  | nil => exact preserves_mPure env []
  | cons v rest ih =>
    simp only [selectLoop, bind_eq_mBind]
    rcases parse_usize v with _ | k
    · exact preserves_mBind (preserves_panicM env)
        (fun idx => preserves_mBind (preserves_idxM env gpus idx)
          (fun g => preserves_mBind ih (fun tail => preserves_mPure env _)))
    · exact preserves_mBind (preserves_mPure env k)
        (fun idx => preserves_mBind (preserves_idxM env gpus idx)
          (fun g => preserves_mBind ih (fun tail => preserves_mPure env _)))

theorem preserves_select_gus (env : Env) (gpus : List Nat)
    (ids : Option (List String)) : Preserves env (select_gus gpus ids) := by
  rcases ids with _ | vs
  · exact preserves_panicM env
  · exact preserves_selectLoop env gpus vs

theorem preserves_gpuclockStep (env : Env) (gc : Option (List Int))
    (i gidx g : Nat) : Preserves env (gpuclockStep env gc i gidx g) := by
  rcases gc with _ | l
  · exact preserves_mPure env ()
  · simp only [gpuclockStep, bind_eq_mBind]
    exact preserves_mBind (preserves_idxM env l i)
      (fun delta => preserves_mBind (preserves_emit env _)
        (fun _ => preserves_libCall env _ _ (fun h => h)))

theorem preserves_memclockStep (env : Env) (mc : Option (List Int))
    (i gidx g : Nat) : Preserves env (memclockStep env mc i gidx g) := by
  rcases mc with _ | l
  · exact preserves_mPure env ()
  · simp only [memclockStep, bind_eq_mBind]
    exact preserves_mBind (preserves_idxM env l i)
      (fun delta => preserves_mBind (preserves_emit env _)
        (fun _ => preserves_libCall env _ _ (fun h => h)))

theorem preserves_plimitStep (env : Env) (pl : Option (List Nat))
    (i gidx g : Nat) : Preserves env (plimitStep env pl i gidx g) := by
  rcases pl with _ | l
  · exact preserves_mPure env ()
  · simp only [plimitStep, bind_eq_mBind]
    exact preserves_mBind (preserves_idxM env l i)
      (fun p => preserves_mBind (preserves_emit env _)
        (fun _ => preserves_libCall env _ _ (fun h => h)))

theorem preserves_tlimitStep (env : Env) (tl : Option (List Int))
    (i gidx g : Nat) : Preserves env (tlimitStep env tl i gidx g) := by
  rcases tl with _ | l
  · exact preserves_mPure env ()
  · simp only [tlimitStep, bind_eq_mBind]
    exact preserves_mBind (preserves_libCall env _ _ (fun h => h))
      (fun controllers => preserves_mBind (preserves_idxM env l i)
        (fun t => preserves_mBind (preserves_emit env _)
          (fun _ => preserves_libCall env _ _ (fun h => h))))

theorem preserves_vlockStep (env : Env) (vl : Option (List Nat))
    (i gidx g : Nat) : Preserves env (vlockStep env vl i gidx g) := by
  rcases vl with _ | l
  · exact preserves_mPure env ()
  · simp only [vlockStep, bind_eq_mBind]
    exact preserves_mBind (preserves_idxM env l i)
      (fun v => preserves_mBind (preserves_emit env _)
        (fun _ => preserves_libCall env _ _ (fun h => h)))

theorem preserves_setGpuStep (env : Env) (gc mc : Option (List Int))
    (pl : Option (List Nat)) (tl : Option (List Int)) (vl : Option (List Nat))
    (i gidx g : Nat) : Preserves env (setGpuStep env gc mc pl tl vl i gidx g) := by
  simp only [setGpuStep, bind_eq_mBind]
  exact preserves_mBind (preserves_gpuclockStep env gc i gidx g)
    (fun _ => preserves_mBind (preserves_memclockStep env mc i gidx g)
      (fun _ => preserves_mBind (preserves_plimitStep env pl i gidx g)
        (fun _ => preserves_mBind (preserves_tlimitStep env tl i gidx g)
          (fun _ => preserves_vlockStep env vl i gidx g))))

theorem preserves_setLoop (env : Env) (gc mc : Option (List Int))
    (pl : Option (List Nat)) (tl : Option (List Int)) (vl : Option (List Nat))
    (i : Nat) (sel : List (Nat × Nat)) :
    Preserves env (setLoop env gc mc pl tl vl i sel) := by
  induction sel generalizing i with
  | nil => exact preserves_mPure env ()
  | cons p rest ih =>
    obtain ⟨gidx, g⟩ := p
    simp only [setLoop, bind_eq_mBind]
    exact preserves_mBind (preserves_setGpuStep env gc mc pl tl vl i gidx g)
      (fun _ => ih (i + 1))

theorem preserves_resetLoop (env : Env) (i : Nat) (l : List Nat) :
    Preserves env (resetLoop env i l) := by
  induction l generalizing i with
  | nil => exact preserves_mPure env ()
  | cons g rest ih =>
    simp only [resetLoop, bind_eq_mBind]
    exact preserves_mBind (preserves_emit env _)
      (fun _ => preserves_mBind (preserves_libCall env _ _ (fun h => h))
        (fun _ => preserves_mBind (preserves_libCall env _ _ (fun h => h))
          (fun inf => preserves_mBind (preserves_libCall env _ _ (fun h => h))
            (fun _ => preserves_mBind (preserves_libCall env _ _ (fun h => h))
              (fun _ => preserves_mBind (preserves_libCall env _ _ (fun h => h))
                (fun _ => ih (i + 1)))))))

theorem preserves_mainRun (env : Env) (m : Matches) :
    Preserves env (mainRun env m) := by
  simp only [mainRun, bind_eq_mBind]
  refine preserves_mBind (preserves_libCall env _ _ (fun h => h)) (fun _ => ?_)
  refine preserves_mBind (preserves_libCall env _ _ (fun h => h)) (fun gpus => ?_)
  refine preserves_mBind (preserves_infoLoop env gpus) (fun info => ?_)
  rcases m with ⟨ids, sub⟩
  rcases sub with _ | _ | sm | _
  · exact preserves_mPure env ()
  · exact preserves_mBind (preserves_listRows env 0 (info.zip gpus))
      (fun rows => preserves_emit env _)
  · refine preserves_mBind (preserves_select_gus env gpus ids) (fun sel => ?_)
    refine preserves_mBind (preserves_parseArgM env _ _ _ _) (fun gc => ?_)
    refine preserves_mBind (preserves_parseArgM env _ _ _ _) (fun mc => ?_)
    refine preserves_mBind (preserves_parseArgM env _ _ _ _) (fun pl => ?_)
    refine preserves_mBind (preserves_parseArgM env _ _ _ _) (fun tl => ?_)
    refine preserves_mBind (preserves_parseArgM env _ _ _ _) (fun vl => ?_)
    exact preserves_setLoop env gc mc pl tl vl 0 sel
  · exact preserves_resetLoop env 0 gpus

theorem runMain_trace_eq (env : Env) (m : Matches) :
    (runMain env m).1 = (mainRun env m ⟨[], []⟩).2.trace := by
  rcases h : mainRun env m ⟨[], []⟩ with ⟨r, s⟩
  rcases r with e | a
  · rcases e with msg | _ <;> simp [runMain, h]
  · simp [runMain, h]

theorem runMain_panicked_of (env : Env) (m : Matches)
    (h : (mainRun env m ⟨[], []⟩).1 = Except.error Abort.panicked) :
    (runMain env m).2.2 = Outcome.panicked := by
  rcases hr : mainRun env m ⟨[], []⟩ with ⟨r, s⟩
  rw [hr] at h
  simp only at h
  subst h
  simp [runMain, hr]

/-! ### Membership in the specification traces -/

theorem mem_resetTrace_of_mem (d : PureDev) (gpus : List Nat) (g : Nat)
    (hg : g ∈ gpus) (c : LibCall) (hc : c ∈ perGpuReset d g) :
    c ∈ resetTrace d gpus := by
  induction gpus with
  | nil => cases hg
  | cons g0 rest ih =>
    rcases List.mem_cons.mp hg with h | h
    · subst h
      exact List.mem_append_left _ hc
    · exact List.mem_append_right _ (ih h)

theorem mem_setTrace_of_at (d : PureDev) (gc mc : Option (List Int))
    (pl : Option (List Nat)) (tl : Option (List Int)) (vl : Option (List Nat))
    (sel : List (Nat × Nat)) (i j : Nat) (hj : j < sel.length) (c : LibCall)
    (hc : c ∈ settingCallsAt d gc mc pl tl vl (i + j) (sel.getD j (0, 0)).2) :
    c ∈ setTrace d gc mc pl tl vl i sel := by
  induction sel generalizing i j with
  | nil => simp at hj
  | cons p rest ih =>
    rcases j with _ | j
    · simp only [List.getD_cons_zero, Nat.add_zero] at hc
      obtain ⟨gidx, g⟩ := p
      exact List.mem_append_left _ hc
    · obtain ⟨gidx, g⟩ := p
      refine List.mem_append_right _ (ih (i + 1) j (by simpa using hj) ?_)
      have harith : (i + 1) + j = i + (j + 1) := by omega
      rw [harith]
      simpa only [List.getD_cons_succ] using hc

theorem at_of_mem_setTrace (d : PureDev) (gc mc : Option (List Int))
    (pl : Option (List Nat)) (tl : Option (List Int)) (vl : Option (List Nat))
    (sel : List (Nat × Nat)) (i : Nat) (c : LibCall)
    (hc : c ∈ setTrace d gc mc pl tl vl i sel) :
    ∃ j, j < sel.length ∧
      c ∈ settingCallsAt d gc mc pl tl vl (i + j) (sel.getD j (0, 0)).2 := by
  induction sel generalizing i with
  | nil => simp [setTrace] at hc
  | cons p rest ih =>
    obtain ⟨gidx, g⟩ := p
    rcases List.mem_append.mp hc with h | h
    · exact ⟨0, by simp, by simpa using h⟩
    · obtain ⟨j, hj, hmem⟩ := ih (i + 1) h
      refine ⟨j + 1, by simpa using hj, ?_⟩
      have harith : i + (j + 1) = (i + 1) + j := by omega
      simp only [harith, List.getD_cons_succ]
      exact hmem

theorem listRowsSpec_length (d : PureDev) (i : Nat) (l : List Nat) :
    (listRowsSpec d i l).length = l.length := by
  induction l generalizing i with
  | nil => rfl
  | cons g rest ih => simp [listRowsSpec, ih]

theorem listRowsSpec_getD (d : PureDev) (i j : Nat) (l : List Nat)
    (hj : j < l.length) :
    (listRowsSpec d i l).getD j [] =
      ["GPU #" ++ toString (i + j), (d.infoF (l.getD j 0)).name,
        (d.infoF (l.getD j 0)).vendor, toString (d.gpuIdF (l.getD j 0))] := by
  induction l generalizing i j with
  | nil => simp at hj
  | cons g rest ih =>
    rcases j with _ | j
    · simp [listRowsSpec]
    · have harith : i + (j + 1) = (i + 1) + j := by omega
      simp only [listRowsSpec, List.getD_cons_succ, harith]
      exact ih (i + 1) j (by simpa using hj)

/-! ### Panics of the `set` subcommand on bad id lists -/

theorem selectLoop_panics (gpus : List Nat) (vs : List String)
    (hbad : ∃ v ∈ vs, parse_usize v = none ∨
      ∃ k, parse_usize v = some k ∧ gpus.length ≤ k) (s : St) :
    selectLoop gpus vs s = (Except.error Abort.panicked, s) := by
  induction vs with
  | nil => obtain ⟨v, hv, _⟩ := hbad; cases hv
  | cons v0 rest ih =>
    obtain ⟨v, hv, hbadv⟩ := hbad
    rcases List.mem_cons.mp hv with h0 | hv'
    · subst h0
      rcases hbadv with hp | ⟨k, hp, hk⟩
      · simp [selectLoop, bind_eq_mBind, mBind, hp, panicM]
      · have hnone : gpus[k]? = none := by
          rw [List.getElem?_eq_none]
          exact hk
        simp [selectLoop, bind_eq_mBind, mBind, hp, idxM, hnone, mPure, panicM]
    · rcases hp : parse_usize v0 with _ | k
      · simp [selectLoop, bind_eq_mBind, mBind, hp, panicM]
      · rcases hg : gpus[k]? with _ | g
        · simp [selectLoop, bind_eq_mBind, mBind, hp, idxM, hg, mPure, panicM]
        · simp [selectLoop, bind_eq_mBind, mBind, hp, idxM, hg, mPure,
            ih ⟨v, hv', hbadv⟩]

theorem infoLoop_cases (env : Env) (l : List Nat) (s : St) :
    (∃ infos s', infoLoop env l s = (Except.ok infos, s')) ∨
      ∃ s', infoLoop env l s = (Except.error Abort.panicked, s') := by
  induction l generalizing s with
  | nil => exact Or.inl ⟨[], s, rfl⟩
  | cons g rest ih =>
    rcases hres : env.info g with e | inf
    · right
      refine ⟨⟨s.trace ++ [LibCall.info g], s.out⟩, ?_⟩
      simp [infoLoop, bind_eq_mBind, mBind, libCall, hres]
    · rcases ih ⟨s.trace ++ [LibCall.info g], s.out⟩ with ⟨infos, s', h⟩ | ⟨s', h⟩
      · exact Or.inl ⟨inf :: infos, s',
          by simp [infoLoop, bind_eq_mBind, mBind, libCall, hres, h, mPure]⟩
      · exact Or.inr ⟨s',
          by simp [infoLoop, bind_eq_mBind, mBind, libCall, hres, h]⟩

/-! ### Numeric `parse_arg` facts -/

theorem parseValues_total {α : Type} (p : String → Option α) (vs : List String)
    (h : ∀ v ∈ vs, (p v).isSome) :
    ∃ l, parseValues p vs = some l ∧ l.length = vs.length := by
  induction vs with
  | nil => exact ⟨[], rfl, rfl⟩
  | cons v rest ih =>
    obtain ⟨x, hx⟩ := Option.isSome_iff_exists.mp (h v (List.mem_cons_self v rest))
    obtain ⟨l, hl, hlen⟩ := ih (fun v' hv' => h v' (List.mem_cons_of_mem _ hv'))
    exact ⟨x :: l, by simp [parseValues, hx, hl], by simp [hlen]⟩

theorem parse_arg_wrong_count {α : Type} (p : String → Option α)
    (param : String) (vs : List String) (n : Nat)
    (h : ∀ v ∈ vs, (p v).isSome) (hne : vs.length ≠ n) :
    parse_arg p param (some vs) n =
      ParseOut.usage ("Wrong number of " ++ param ++ " values, got " ++
        toString vs.length ++ ", expected " ++ toString n) := by
  obtain ⟨l, hl, hlen⟩ := parseValues_total p vs h
  simp [parse_arg, hl, hlen, hne]

theorem parse_arg_right_count {α : Type} (p : String → Option α)
    (param : String) (vs : List String) (n : Nat)
    (h : ∀ v ∈ vs, (p v).isSome) (he : vs.length = n) :
    ∃ l, parse_arg p param (some vs) n = ParseOut.res (some l) ∧
      l.length = n := by
  obtain ⟨l, hl, hlen⟩ := parseValues_total p vs h
  exact ⟨l, by simp [parse_arg, hl, hlen, he], by omega⟩

theorem parse_arg_numeric_cases {α : Type} (p : String → Option α)
    (param : String) (ov : Option (List String)) (n : Nat)
    (h : ∀ vs, ov = some vs → ∀ v ∈ vs, (p v).isSome) :
    (∃ msg, parse_arg p param ov n = ParseOut.usage msg) ∨
    (∃ r, parse_arg p param ov n = ParseOut.res r ∧
      ∀ vs, ov = some vs → vs.length = n) := by
  rcases ov with _ | vs
  · exact Or.inr ⟨none, rfl, by simp⟩
  · by_cases he : vs.length = n
    · obtain ⟨l, hl, _⟩ := parse_arg_right_count p param vs n (h vs rfl) he
      exact Or.inr ⟨some l, hl, by simpa using he⟩
    · exact Or.inl ⟨_, parse_arg_wrong_count p param vs n (h vs rfl) he⟩

/-! ### Evaluation of `runMain` per subcommand, all calls succeeding -/

theorem runMain_reset (d : PureDev) (ids : Option (List String)) :
    runMain (okEnv d) ⟨ids, Subcmd.reset⟩ =
      (preludeTrace d.gpus ++ resetTrace d d.gpus,
        resetOut 0 d.gpus, Outcome.ok) := by
  simp [runMain, mainRun, bind_eq_mBind, libCall, mBind, infoLoop_ok,
    resetLoop_ok, preludeTrace]

theorem runMain_list (d : PureDev) (ids : Option (List String)) :
    runMain (okEnv d) ⟨ids, Subcmd.list⟩ =
      (preludeTrace d.gpus ++ d.gpus.map LibCall.gpuId,
        [OutputItem.table ⟨listTitles, listRowsSpec d 0 d.gpus⟩],
        Outcome.ok) := by
  simp [runMain, mainRun, bind_eq_mBind, libCall, mBind, List.zip,
    infoLoop_ok, listRows_ok, emit, preludeTrace]

theorem runMain_set (d : PureDev) (sm : SetMatches) (idv : List String)
    (sel : List (Nat × Nat)) (gc mc : Option (List Int))
    (pl : Option (List Nat)) (tl : Option (List Int)) (vl : Option (List Nat))
    (hsel : selParse d.gpus idv = some sel)
    (hgc : parse_arg parse_i32 "gpuclock" sm.gpuclock sel.length = ParseOut.res gc)
    (hmc : parse_arg parse_i32 "memclock" sm.memclock sel.length = ParseOut.res mc)
    (hpl : parse_arg parse_u32 "plimit" sm.plimit sel.length = ParseOut.res pl)
    (htl : parse_arg parse_i32 "tlimit" sm.tlimit sel.length = ParseOut.res tl)
    (hvl : parse_arg parse_u32 "vlock" sm.vlock sel.length = ParseOut.res vl) :
    runMain (okEnv d) ⟨some idv, Subcmd.set sm⟩ =
      (preludeTrace d.gpus ++ setTrace d gc mc pl tl vl 0 sel,
        setOut gc mc pl tl vl 0 sel, Outcome.ok) := by
  have hgcl : ∀ l, gc = some l → 0 + sel.length ≤ l.length := by
    rintro l rfl
    rw [parse_arg_res_some_length _ _ _ _ _ hgc]
    omega
  have hmcl : ∀ l, mc = some l → 0 + sel.length ≤ l.length := by
    rintro l rfl
    rw [parse_arg_res_some_length _ _ _ _ _ hmc]
    omega
  have hpll : ∀ l, pl = some l → 0 + sel.length ≤ l.length := by
    rintro l rfl
    rw [parse_arg_res_some_length _ _ _ _ _ hpl]
    omega
  have htll : ∀ l, tl = some l → 0 + sel.length ≤ l.length := by
    rintro l rfl
    rw [parse_arg_res_some_length _ _ _ _ _ htl]
    omega
  have hvll : ∀ l, vl = some l → 0 + sel.length ≤ l.length := by
    rintro l rfl
    rw [parse_arg_res_some_length _ _ _ _ _ hvl]
    omega
  simp [runMain, mainRun, bind_eq_mBind, libCall, mBind, select_gus,
    infoLoop_ok, selectLoop_ok d.gpus idv sel hsel, parseArgM, hgc, hmc, hpl,
    htl, hvl, mPure, setLoop_ok d gc mc pl tl vl sel 0 hgcl hmcl hpll htll hvll,
    preludeTrace]

/-- When the positional id list is absent, or one id fails to parse or is
out of range, the `set` subcommand ends in a panic (never a usage error). -/
theorem set_bad_ids_panics (env : Env) (sm : SetMatches)
    (ids : Option (List String)) (gpus : List Nat)
    (henum : env.enumerate = Except.ok gpus)
    (hbad : ids = none ∨ ∃ vs v, ids = some vs ∧ v ∈ vs ∧
      (parse_usize v = none ∨ ∃ k, parse_usize v = some k ∧ gpus.length ≤ k)) :
    (runMain env ⟨ids, Subcmd.set sm⟩).2.2 = Outcome.panicked := by
  apply runMain_panicked_of
  simp only [mainRun, bind_eq_mBind]
  rcases hinit : env.nvInit with e | u
  · simp [mBind, libCall, hinit]
  · rcases infoLoop_cases env gpus ⟨[LibCall.nvInit, LibCall.enumerate], []⟩
      with ⟨infos, s', hil⟩ | ⟨s', hil⟩
    · have hsel : ∀ s0 : St,
          select_gus gpus ids s0 = (Except.error Abort.panicked, s0) := by
        rcases hbad with h | ⟨vs, v, hids, hv, hbadv⟩
        · subst h; intro s0; rfl
        · subst hids
          intro s0
          exact selectLoop_panics gpus vs ⟨v, hv, hbadv⟩ s0
      simp [mBind, libCall, hinit, henum, hil, hsel]
    · simp [mBind, libCall, hinit, henum, hil]

/-- With a valid id list and all flag values numeric, any count mismatch
ends with a usage error before any post-prelude library call. -/
theorem set_wrong_count_usage (d : PureDev) (sm : SetMatches)
    (idv : List String) (sel : List (Nat × Nat))
    (hsel : selParse d.gpus idv = some sel)
    (hgc : ∀ vs, sm.gpuclock = some vs → ∀ v ∈ vs, (parse_i32 v).isSome)
    (hmc : ∀ vs, sm.memclock = some vs → ∀ v ∈ vs, (parse_i32 v).isSome)
    (hpl : ∀ vs, sm.plimit = some vs → ∀ v ∈ vs, (parse_u32 v).isSome)
    (htl : ∀ vs, sm.tlimit = some vs → ∀ v ∈ vs, (parse_i32 v).isSome)
    (hvl : ∀ vs, sm.vlock = some vs → ∀ v ∈ vs, (parse_u32 v).isSome)
    (hwrong : ∃ vs, (sm.gpuclock = some vs ∨ sm.memclock = some vs ∨
      sm.plimit = some vs ∨ sm.tlimit = some vs ∨ sm.vlock = some vs) ∧
      vs.length ≠ sel.length) :
    ∃ msg, runMain (okEnv d) ⟨some idv, Subcmd.set sm⟩ =
      (preludeTrace d.gpus, [], Outcome.usageError msg) := by
  rcases parse_arg_numeric_cases parse_i32 "gpuclock" sm.gpuclock sel.length hgc
    with ⟨msg, hu⟩ | ⟨gcr, hres1, hlen1⟩
  · exact ⟨msg, by simp [runMain, mainRun, bind_eq_mBind, mBind, libCall,
      infoLoop_ok, select_gus, selectLoop_ok d.gpus idv sel hsel, parseArgM,
      hu, usageExit, preludeTrace]⟩
  rcases parse_arg_numeric_cases parse_i32 "memclock" sm.memclock sel.length hmc
    with ⟨msg, hu⟩ | ⟨mcr, hres2, hlen2⟩
  · exact ⟨msg, by simp [runMain, mainRun, bind_eq_mBind, mBind, libCall,
      infoLoop_ok, select_gus, selectLoop_ok d.gpus idv sel hsel, parseArgM,
      hres1, hu, usageExit, mPure, preludeTrace]⟩
  rcases parse_arg_numeric_cases parse_u32 "plimit" sm.plimit sel.length hpl
    with ⟨msg, hu⟩ | ⟨plr, hres3, hlen3⟩
  · exact ⟨msg, by simp [runMain, mainRun, bind_eq_mBind, mBind, libCall,
      infoLoop_ok, select_gus, selectLoop_ok d.gpus idv sel hsel, parseArgM,
      hres1, hres2, hu, usageExit, mPure, preludeTrace]⟩
  rcases parse_arg_numeric_cases parse_i32 "tlimit" sm.tlimit sel.length htl
    with ⟨msg, hu⟩ | ⟨tlr, hres4, hlen4⟩
  · exact ⟨msg, by simp [runMain, mainRun, bind_eq_mBind, mBind, libCall,
      infoLoop_ok, select_gus, selectLoop_ok d.gpus idv sel hsel, parseArgM,
      hres1, hres2, hres3, hu, usageExit, mPure, preludeTrace]⟩
  rcases parse_arg_numeric_cases parse_u32 "vlock" sm.vlock sel.length hvl
    with ⟨msg, hu⟩ | ⟨vlr, hres5, hlen5⟩
  · exact ⟨msg, by simp [runMain, mainRun, bind_eq_mBind, mBind, libCall,
      infoLoop_ok, select_gus, selectLoop_ok d.gpus idv sel hsel, parseArgM,
      hres1, hres2, hres3, hres4, hu, usageExit, mPure, preludeTrace]⟩
  obtain ⟨vs, hdisj, hne⟩ := hwrong
  rcases hdisj with h | h | h | h | h
  · exact absurd (hlen1 vs h) hne
  · exact absurd (hlen2 vs h) hne
  · exact absurd (hlen3 vs h) hne
  · exact absurd (hlen4 vs h) hne
  · exact absurd (hlen5 vs h) hne

/-! ### Inversion of membership in one iteration's calls -/

theorem mem_gcCalls {gc : Option (List Int)} {i g : Nat} {c : LibCall}
    (h : c ∈ gcCalls gc i g) : ∃ l, gc = some l ∧
      c = LibCall.setPstates g [(PState.P0, ClockDomain.Graphics, l.getD i 0)] := by
  rcases gc with _ | l
  · simp [gcCalls] at h
  · simp only [gcCalls, List.mem_singleton] at h
    exact ⟨l, rfl, h⟩

theorem mem_mcCalls {mc : Option (List Int)} {i g : Nat} {c : LibCall}
    (h : c ∈ mcCalls mc i g) : ∃ l, mc = some l ∧
      c = LibCall.setPstates g [(PState.P0, ClockDomain.Memory, l.getD i 0)] := by
  rcases mc with _ | l
  · simp [mcCalls] at h
  · simp only [mcCalls, List.mem_singleton] at h
    exact ⟨l, rfl, h⟩

theorem mem_plCalls {pl : Option (List Nat)} {i g : Nat} {c : LibCall}
    (h : c ∈ plCalls pl i g) : ∃ l, pl = some l ∧
      c = LibCall.setPowerLimits g [l.getD i 0] := by
  rcases pl with _ | l
  · simp [plCalls] at h
  · simp only [plCalls, List.mem_singleton] at h
    exact ⟨l, rfl, h⟩

theorem mem_tlCalls {d : PureDev} {tl : Option (List Int)} {i g : Nat}
    {c : LibCall} (h : c ∈ tlCalls d tl i g) : ∃ l, tl = some l ∧
      (c = LibCall.thermalLimitInfo g ∨
        c = LibCall.setSensorLimits g
          (List.replicate (d.thermalCount g) (l.getD i 0))) := by
  rcases tl with _ | l
  · simp [tlCalls] at h
  · simp only [tlCalls, List.mem_cons, List.not_mem_nil, or_false] at h
    exact ⟨l, rfl, h⟩

theorem mem_vlCalls {vl : Option (List Nat)} {i g : Nat} {c : LibCall}
    (h : c ∈ vlCalls vl i g) : ∃ l, vl = some l ∧
      c = LibCall.setVfpLock g (l.getD i 0) := by
  rcases vl with _ | l
  · simp [vlCalls] at h
  · simp only [vlCalls, List.mem_singleton] at h
    exact ⟨l, rfl, h⟩

theorem mem_settingCallsAt {d : PureDev} {gc mc : Option (List Int)}
    {pl : Option (List Nat)} {tl : Option (List Int)} {vl : Option (List Nat)}
    {i g : Nat} {c : LibCall}
    (h : c ∈ settingCallsAt d gc mc pl tl vl i g) :
    (∃ l, gc = some l ∧
      c = LibCall.setPstates g [(PState.P0, ClockDomain.Graphics, l.getD i 0)]) ∨
    (∃ l, mc = some l ∧
      c = LibCall.setPstates g [(PState.P0, ClockDomain.Memory, l.getD i 0)]) ∨
    (∃ l, pl = some l ∧ c = LibCall.setPowerLimits g [l.getD i 0]) ∨
    (∃ l, tl = some l ∧ (c = LibCall.thermalLimitInfo g ∨
      c = LibCall.setSensorLimits g
        (List.replicate (d.thermalCount g) (l.getD i 0)))) ∨
    (∃ l, vl = some l ∧ c = LibCall.setVfpLock g (l.getD i 0)) := by
  unfold settingCallsAt at h
  rcases List.mem_append.mp h with h | h
  rcases List.mem_append.mp h with h | h
  rcases List.mem_append.mp h with h | h
  rcases List.mem_append.mp h with h | h
  · exact Or.inl (mem_gcCalls h)
  · exact Or.inr (Or.inl (mem_mcCalls h))
  · exact Or.inr (Or.inr (Or.inl (mem_plCalls h)))
  · exact Or.inr (Or.inr (Or.inr (Or.inl (mem_tlCalls h))))
  · exact Or.inr (Or.inr (Or.inr (Or.inr (mem_vlCalls h))))

/-! ## Claim theorems -/

/-- Claim C1, counterexample: with one selected GPU and
`--memclock x 1` (two values, so a wrong count), the program panics while
unwrapping the parse of `x` instead of aborting with the claimed usage
error, because `parse_arg` parses every value before comparing counts. -/
theorem c1_counterexample :
    (runMain (okEnv dev1) ⟨some ["0"],
      Subcmd.set ⟨none, some ["x", "1"], none, none, none⟩⟩).2.2 =
      Outcome.panicked := by decide

/-- Claim C1 (amended): provided every supplied value of every flag parses
as a number of the flag's type, a count different from the number N of
selected GPUs aborts with a usage error and the trace stays at the prelude
(no library call is made for any flag); and a flag supplied with exactly N
parseable values parses successfully. -/
theorem c1_theorem (d : PureDev) (sm : SetMatches) (idv : List String)
    (sel : List (Nat × Nat)) (hsel : selParse d.gpus idv = some sel)
    (hgc : ∀ vs, sm.gpuclock = some vs → ∀ v ∈ vs, (parse_i32 v).isSome)
    (hmc : ∀ vs, sm.memclock = some vs → ∀ v ∈ vs, (parse_i32 v).isSome)
    (hpl : ∀ vs, sm.plimit = some vs → ∀ v ∈ vs, (parse_u32 v).isSome)
    (htl : ∀ vs, sm.tlimit = some vs → ∀ v ∈ vs, (parse_i32 v).isSome)
    (hvl : ∀ vs, sm.vlock = some vs → ∀ v ∈ vs, (parse_u32 v).isSome) :
    ((∃ vs, (sm.gpuclock = some vs ∨ sm.memclock = some vs ∨
        sm.plimit = some vs ∨ sm.tlimit = some vs ∨ sm.vlock = some vs) ∧
        vs.length ≠ sel.length) →
      ∃ msg, runMain (okEnv d) ⟨some idv, Subcmd.set sm⟩ =
        (preludeTrace d.gpus, [], Outcome.usageError msg)) ∧
    (∀ {α : Type} (p : String → Option α) (param : String) (vs : List String),
      (∀ v ∈ vs, (p v).isSome) → vs.length = sel.length →
      ∃ l, parse_arg p param (some vs) sel.length = ParseOut.res (some l)) := by
  constructor
  · intro hwrong
    exact set_wrong_count_usage d sm idv sel hsel hgc hmc hpl htl hvl hwrong
  · intro α p param vs hnum he
    obtain ⟨l, hl, _⟩ := parse_arg_right_count p param vs sel.length hnum he
    exact ⟨l, hl⟩

/-- Claim C1, witness: one selected GPU; `--memclock 5 6` (both numeric,
wrong count) gives the usage error with only the prelude calls made, and a
single numeric value parses. -/
theorem c1_witness :
    (∃ msg, runMain (okEnv dev1) ⟨some ["0"],
        Subcmd.set ⟨none, some ["5", "6"], none, none, none⟩⟩ =
      (preludeTrace dev1.gpus, [], Outcome.usageError msg)) ∧
    (∃ l, parse_arg parse_i32 "memclock" (some ["7"]) 1 =
      ParseOut.res (some l)) := by
  have h := c1_theorem dev1 ⟨none, some ["5", "6"], none, none, none⟩ ["0"]
    [(0, 0)] (by decide)
    (fun vs h => nomatch h)
    (fun vs h v hv => by injection h with h2; subst h2; revert v hv; decide)
    (fun vs h => nomatch h)
    (fun vs h => nomatch h)
    (fun vs h => nomatch h)
  exact ⟨h.1 ⟨["5", "6"], Or.inr (Or.inl rfl), by decide⟩,
    h.2 parse_i32 "memclock" ["7"] (by decide) (by decide)⟩

/-- Claim C2, counterexample: with two enumerated GPUs and the positional
id list `0`, the `reset` subcommand still resets GPU 1: its loop iterates
over all enumerated GPUs and never reads the id list. -/
theorem c2_counterexample :
    LibCall.resetVfpLock 1 ∈
      (runMain (okEnv dev2) ⟨some ["0"], Subcmd.reset⟩).1 := by decide

/-- Claim C2 (amended): the `reset` subcommand ignores the positional
GPU-index list and resets every enumerated GPU, in enumeration order. -/
theorem c2_theorem (d : PureDev) (ids : Option (List String)) :
    runMain (okEnv d) ⟨ids, Subcmd.reset⟩ =
      (preludeTrace d.gpus ++ resetTrace d d.gpus, resetOut 0 d.gpus,
        Outcome.ok) ∧
    ∀ g ∈ d.gpus, LibCall.resetVfpLock g ∈
      (runMain (okEnv d) ⟨ids, Subcmd.reset⟩).1 := by
  refine ⟨runMain_reset d ids, fun g hg => ?_⟩
  rw [runMain_reset d ids]
  exact List.mem_append_right _
    (mem_resetTrace_of_mem d d.gpus g hg _ (by simp [perGpuReset]))

/-- Claim C2, witness: two GPUs, ids `0`: the whole reset trace is produced
and GPU 1 is reset even though it was not selected. -/
theorem c2_witness :
    runMain (okEnv dev2) ⟨some ["0"], Subcmd.reset⟩ =
      (preludeTrace dev2.gpus ++ resetTrace dev2 dev2.gpus,
        resetOut 0 dev2.gpus, Outcome.ok) ∧
    LibCall.resetVfpLock 1 ∈
      (runMain (okEnv dev2) ⟨some ["0"], Subcmd.reset⟩).1 :=
  ⟨(c2_theorem dev2 (some ["0"])).1,
    (c2_theorem dev2 (some ["0"])).2 1 (by decide)⟩

/-- Claim C3: every library call is `unwrap`ped: whenever a call recorded
in the trace returned an error, the process ends in a panic; no error is
caught or recovered from. -/
theorem c3_theorem (env : Env) (m : Matches) (c : LibCall)
    (hc : c ∈ (runMain env m).1) (hfail : callOk env c = false) :
    (runMain env m).2.2 = Outcome.panicked := by
  have hpres := preserves_mainRun env m ⟨[], []⟩
    (fun c' hc' => absurd hc' (List.not_mem_nil c'))
  rcases hpres with h | h
  · exfalso
    rw [runMain_trace_eq] at hc
    have htrue := h c hc
    rw [hfail] at htrue
    exact Bool.false_ne_true htrue
  · exact runMain_panicked_of env m h

/-- Claim C3, witness: an environment whose `initialize` fails makes the
run panic with exactly that call in the trace. -/
theorem c3_witness :
    LibCall.nvInit ∈ (runMain failInitEnv ⟨none, Subcmd.list⟩).1 ∧
    callOk failInitEnv LibCall.nvInit = false ∧
    (runMain failInitEnv ⟨none, Subcmd.list⟩).2.2 = Outcome.panicked :=
  ⟨by decide, by decide,
    c3_theorem failInitEnv ⟨none, Subcmd.list⟩ LibCall.nvInit
      (by decide) (by decide)⟩

/-- Claim C4: flag values are per-GPU aligned: for position `i` of the
selected list, the `i`-th value of each supplied flag is applied to the
`i`-th selected GPU; `--gpuclock` and `--memclock` become `P0` clock deltas
for the `Graphics` and `Memory` domains. -/
theorem c4_theorem (d : PureDev) (sm : SetMatches) (idv : List String)
    (sel : List (Nat × Nat)) (gc mc : Option (List Int))
    (pl : Option (List Nat)) (tl : Option (List Int)) (vl : Option (List Nat))
    (hsel : selParse d.gpus idv = some sel)
    (hgc : parse_arg parse_i32 "gpuclock" sm.gpuclock sel.length = ParseOut.res gc)
    (hmc : parse_arg parse_i32 "memclock" sm.memclock sel.length = ParseOut.res mc)
    (hpl : parse_arg parse_u32 "plimit" sm.plimit sel.length = ParseOut.res pl)
    (htl : parse_arg parse_i32 "tlimit" sm.tlimit sel.length = ParseOut.res tl)
    (hvl : parse_arg parse_u32 "vlock" sm.vlock sel.length = ParseOut.res vl)
    (i : Nat) (hi : i < sel.length) :
    (∀ l, gc = some l →
      LibCall.setPstates (sel.getD i (0, 0)).2
        [(PState.P0, ClockDomain.Graphics, l.getD i 0)] ∈
        (runMain (okEnv d) ⟨some idv, Subcmd.set sm⟩).1) ∧
    (∀ l, mc = some l →
      LibCall.setPstates (sel.getD i (0, 0)).2
        [(PState.P0, ClockDomain.Memory, l.getD i 0)] ∈
        (runMain (okEnv d) ⟨some idv, Subcmd.set sm⟩).1) ∧
    (∀ l, pl = some l →
      LibCall.setPowerLimits (sel.getD i (0, 0)).2 [l.getD i 0] ∈
        (runMain (okEnv d) ⟨some idv, Subcmd.set sm⟩).1) ∧
    (∀ l, tl = some l →
      LibCall.setSensorLimits (sel.getD i (0, 0)).2
        (List.replicate (d.thermalCount (sel.getD i (0, 0)).2) (l.getD i 0)) ∈
        (runMain (okEnv d) ⟨some idv, Subcmd.set sm⟩).1) ∧
    (∀ l, vl = some l →
      LibCall.setVfpLock (sel.getD i (0, 0)).2 (l.getD i 0) ∈
        (runMain (okEnv d) ⟨some idv, Subcmd.set sm⟩).1) := by
  have hrw := runMain_set d sm idv sel gc mc pl tl vl hsel hgc hmc hpl htl hvl
  refine ⟨?_, ?_, ?_, ?_, ?_⟩ <;> rintro l rfl <;> rw [hrw] <;>
    refine List.mem_append_right _
      (mem_setTrace_of_at d _ _ _ _ _ sel 0 i hi _ ?_) <;>
    simp [settingCallsAt, gcCalls, mcCalls, plCalls, tlCalls, vlCalls]

/-- Claim C4, witness: two selected GPUs, `--gpuclock 5 6` and
`--tlimit 80 81`: value index 1 is applied to selected GPU index 1. -/
theorem c4_witness :
    (LibCall.setPstates 1 [(PState.P0, ClockDomain.Graphics, 6)] ∈
      (runMain (okEnv dev2) ⟨some ["0", "1"],
        Subcmd.set ⟨some ["5", "6"], none, none, some ["80", "81"], none⟩⟩).1) ∧
    (LibCall.setSensorLimits 1 (List.replicate 2 81) ∈
      (runMain (okEnv dev2) ⟨some ["0", "1"],
        Subcmd.set ⟨some ["5", "6"], none, none, some ["80", "81"], none⟩⟩).1) := by
  have h := c4_theorem dev2 ⟨some ["5", "6"], none, none, some ["80", "81"], none⟩
    ["0", "1"] [(0, 0), (1, 1)] (some [5, 6]) none none (some [80, 81]) none
    (by decide) (by decide) (by decide) (by decide) (by decide) (by decide)
    1 (by decide)
  exact ⟨h.1 [5, 6] rfl, h.2.2.2.1 [80, 81] rfl⟩

/-- Claim C5: for every GPU the `reset` subcommand processes, it zeroes the
`P0` Graphics and Memory clock deltas, restores every power limit and every
sensor limit to its library-reported default, and resets the VFP lock. -/
theorem c5_theorem (d : PureDev) (ids : Option (List String)) (g : Nat)
    (hg : g ∈ d.gpus) :
    LibCall.setPstates g [(PState.P0, ClockDomain.Graphics, 0),
        (PState.P0, ClockDomain.Memory, 0)] ∈
      (runMain (okEnv d) ⟨ids, Subcmd.reset⟩).1 ∧
    LibCall.setPowerLimits g
        ((d.infoF g).power_limits.map PowerLimit.default) ∈
      (runMain (okEnv d) ⟨ids, Subcmd.reset⟩).1 ∧
    LibCall.setSensorLimits g
        ((d.infoF g).sensor_limits.map SensorLimit.default) ∈
      (runMain (okEnv d) ⟨ids, Subcmd.reset⟩).1 ∧
    LibCall.resetVfpLock g ∈ (runMain (okEnv d) ⟨ids, Subcmd.reset⟩).1 := by
  rw [runMain_reset d ids]
  refine ⟨?_, ?_, ?_, ?_⟩ <;>
    exact List.mem_append_right _
      (mem_resetTrace_of_mem d d.gpus g hg _
        (by simp [perGpuReset, resetDeltas]))

/-- Claim C5, witness: the reset actions for GPU 1 of a two-GPU device. -/
theorem c5_witness :
    LibCall.setPstates 1 [(PState.P0, ClockDomain.Graphics, 0),
        (PState.P0, ClockDomain.Memory, 0)] ∈
      (runMain (okEnv dev2) ⟨none, Subcmd.reset⟩).1 ∧
    LibCall.setPowerLimits 1
        ((dev2.infoF 1).power_limits.map PowerLimit.default) ∈
      (runMain (okEnv dev2) ⟨none, Subcmd.reset⟩).1 ∧
    LibCall.setSensorLimits 1
        ((dev2.infoF 1).sensor_limits.map SensorLimit.default) ∈
      (runMain (okEnv dev2) ⟨none, Subcmd.reset⟩).1 ∧
    LibCall.resetVfpLock 1 ∈ (runMain (okEnv dev2) ⟨none, Subcmd.reset⟩).1 :=
  c5_theorem dev2 none 1 (by decide)

/-- Claim C6: the `list` subcommand prints one table whose titles are
`GPU Index`, `Name`, `Vendor`, `Device ID`, with exactly one row per
enumerated GPU in order; row `i` holds the index `i`, the GPU's name, its
vendor, and its device id. -/
theorem c6_theorem (d : PureDev) (ids : Option (List String)) (i : Nat)
    (hi : i < d.gpus.length) :
    (runMain (okEnv d) ⟨ids, Subcmd.list⟩).2.1 =
      [OutputItem.table ⟨["GPU Index", "Name", "Vendor", "Device ID"],
        listRowsSpec d 0 d.gpus⟩] ∧
    (listRowsSpec d 0 d.gpus).length = d.gpus.length ∧
    (listRowsSpec d 0 d.gpus).getD i [] =
      ["GPU #" ++ toString i, (d.infoF (d.gpus.getD i 0)).name,
        (d.infoF (d.gpus.getD i 0)).vendor,
        toString (d.gpuIdF (d.gpus.getD i 0))] := by
  refine ⟨?_, listRowsSpec_length d 0 d.gpus, ?_⟩
  · rw [runMain_list d ids]
    rfl
  · have h := listRowsSpec_getD d 0 i d.gpus hi
    simpa using h

/-- Claim C6, witness: the two-GPU table, checked at row 1. -/
theorem c6_witness :
    (runMain (okEnv dev2) ⟨none, Subcmd.list⟩).2.1 =
      [OutputItem.table ⟨["GPU Index", "Name", "Vendor", "Device ID"],
        listRowsSpec dev2 0 dev2.gpus⟩] ∧
    (listRowsSpec dev2 0 dev2.gpus).length = dev2.gpus.length ∧
    (listRowsSpec dev2 0 dev2.gpus).getD 1 [] =
      ["GPU #" ++ toString 1, (dev2.infoF (dev2.gpus.getD 1 0)).name,
        (dev2.infoF (dev2.gpus.getD 1 0)).vendor,
        toString (dev2.gpuIdF (dev2.gpus.getD 1 0))] :=
  c6_theorem dev2 none 1 (by decide)

/-- Claim C7: the `set` subcommand walks the selected GPUs sequentially in
the order of the positional index list, and for each one issues the library
calls in the fixed order gpu clock, memory clock, power limit, temperature
limit, voltage lock (see `settingCallsAt`); the full trace is the prelude
followed by exactly that per-GPU sequence. -/
theorem c7_theorem (d : PureDev) (sm : SetMatches) (idv : List String)
    (sel : List (Nat × Nat)) (gc mc : Option (List Int))
    (pl : Option (List Nat)) (tl : Option (List Int)) (vl : Option (List Nat))
    (hsel : selParse d.gpus idv = some sel)
    (hgc : parse_arg parse_i32 "gpuclock" sm.gpuclock sel.length = ParseOut.res gc)
    (hmc : parse_arg parse_i32 "memclock" sm.memclock sel.length = ParseOut.res mc)
    (hpl : parse_arg parse_u32 "plimit" sm.plimit sel.length = ParseOut.res pl)
    (htl : parse_arg parse_i32 "tlimit" sm.tlimit sel.length = ParseOut.res tl)
    (hvl : parse_arg parse_u32 "vlock" sm.vlock sel.length = ParseOut.res vl) :
    runMain (okEnv d) ⟨some idv, Subcmd.set sm⟩ =
      (preludeTrace d.gpus ++ setTrace d gc mc pl tl vl 0 sel,
        setOut gc mc pl tl vl 0 sel, Outcome.ok) :=
  runMain_set d sm idv sel gc mc pl tl vl hsel hgc hmc hpl htl hvl

/-- Claim C7, witness: two selected GPUs with `--gpuclock` and `--plimit`:
the whole run evaluates to the specified ordered trace. -/
theorem c7_witness :
    runMain (okEnv dev2) ⟨some ["0", "1"],
        Subcmd.set ⟨some ["5", "6"], none, some ["90", "95"], none, none⟩⟩ =
      (preludeTrace dev2.gpus ++
        setTrace dev2 (some [5, 6]) none (some [90, 95]) none none 0
          [(0, 0), (1, 1)],
        setOut (some [5, 6]) none (some [90, 95]) none none 0
          [(0, 0), (1, 1)], Outcome.ok) :=
  c7_theorem dev2 ⟨some ["5", "6"], none, some ["90", "95"], none, none⟩
    ["0", "1"] [(0, 0), (1, 1)] (some [5, 6]) none (some [90, 95]) none none
    (by decide) (by decide) (by decide) (by decide) (by decide) (by decide)

/-- Claim C8: a non-numeric value (`--memclock abc`) and a negative value
to an unsigned flag (`--plimit -5`) both panic during parsing — the
`from_str_radix(..).ok().unwrap()` — instead of aborting with a usage
error. -/
theorem c8_theorem :
    (runMain (okEnv dev1) ⟨some ["0"],
      Subcmd.set ⟨none, some ["abc"], none, none, none⟩⟩).2.2 =
      Outcome.panicked ∧
    (runMain (okEnv dev1) ⟨some ["0"],
      Subcmd.set ⟨none, none, some ["-5"], none, none⟩⟩).2.2 =
      Outcome.panicked := by decide

/-- Claim C9: the `set` subcommand panics whenever the positional id list
is missing, an id fails to parse as a decimal `usize`, or an id is at least
the number of enumerated GPUs — never a usage error in these cases. -/
theorem c9_theorem (env : Env) (sm : SetMatches) (ids : Option (List String))
    (gpus : List Nat) (henum : env.enumerate = Except.ok gpus)
    (hbad : ids = none ∨ ∃ vs v, ids = some vs ∧ v ∈ vs ∧
      (parse_usize v = none ∨ ∃ k, parse_usize v = some k ∧ gpus.length ≤ k)) :
    (runMain env ⟨ids, Subcmd.set sm⟩).2.2 = Outcome.panicked :=
  set_bad_ids_panics env sm ids gpus henum hbad

/-- Claim C9, witness: `set` with no ids, with the non-numeric id `zz`,
and with the out-of-range id `3` (one GPU) all panic. -/
theorem c9_witness :
    (runMain (okEnv dev1)
      ⟨none, Subcmd.set ⟨none, none, none, none, none⟩⟩).2.2 =
      Outcome.panicked ∧
    (runMain (okEnv dev1)
      ⟨some ["zz"], Subcmd.set ⟨none, none, none, none, none⟩⟩).2.2 =
      Outcome.panicked ∧
    (runMain (okEnv dev1)
      ⟨some ["3"], Subcmd.set ⟨none, none, none, none, none⟩⟩).2.2 =
      Outcome.panicked :=
  ⟨c9_theorem (okEnv dev1) ⟨none, none, none, none, none⟩ none dev1.gpus rfl
      (Or.inl rfl),
   c9_theorem (okEnv dev1) ⟨none, none, none, none, none⟩ (some ["zz"])
      dev1.gpus rfl
      (Or.inr ⟨["zz"], "zz", rfl, by decide, Or.inl (by decide)⟩),
   c9_theorem (okEnv dev1) ⟨none, none, none, none, none⟩ (some ["3"])
      dev1.gpus rfl
      (Or.inr ⟨["3"], "3", rfl, by decide, Or.inr ⟨3, by decide, by decide⟩⟩)⟩

/-- Claim C10: in the `set` subcommand an omitted flag produces no library
call for that setting on any GPU, and a supplied `--tlimit` value is
replicated to every thermal controller of the GPU it is applied to. -/
theorem c10_theorem (d : PureDev) (sm : SetMatches) (idv : List String)
    (sel : List (Nat × Nat)) (gc mc : Option (List Int))
    (pl : Option (List Nat)) (tl : Option (List Int)) (vl : Option (List Nat))
    (hsel : selParse d.gpus idv = some sel)
    (hgc : parse_arg parse_i32 "gpuclock" sm.gpuclock sel.length = ParseOut.res gc)
    (hmc : parse_arg parse_i32 "memclock" sm.memclock sel.length = ParseOut.res mc)
    (hpl : parse_arg parse_u32 "plimit" sm.plimit sel.length = ParseOut.res pl)
    (htl : parse_arg parse_i32 "tlimit" sm.tlimit sel.length = ParseOut.res tl)
    (hvl : parse_arg parse_u32 "vlock" sm.vlock sel.length = ParseOut.res vl) :
    (sm.gpuclock = none → ∀ g δ,
      LibCall.setPstates g [(PState.P0, ClockDomain.Graphics, δ)] ∉
        (runMain (okEnv d) ⟨some idv, Subcmd.set sm⟩).1) ∧
    (sm.memclock = none → ∀ g δ,
      LibCall.setPstates g [(PState.P0, ClockDomain.Memory, δ)] ∉
        (runMain (okEnv d) ⟨some idv, Subcmd.set sm⟩).1) ∧
    (sm.plimit = none → ∀ g l,
      LibCall.setPowerLimits g l ∉
        (runMain (okEnv d) ⟨some idv, Subcmd.set sm⟩).1) ∧
    (sm.tlimit = none → ∀ g,
      LibCall.thermalLimitInfo g ∉
        (runMain (okEnv d) ⟨some idv, Subcmd.set sm⟩).1 ∧
      ∀ l, LibCall.setSensorLimits g l ∉
        (runMain (okEnv d) ⟨some idv, Subcmd.set sm⟩).1) ∧
    (sm.vlock = none → ∀ g v,
      LibCall.setVfpLock g v ∉
        (runMain (okEnv d) ⟨some idv, Subcmd.set sm⟩).1) ∧
    (∀ lt, tl = some lt → ∀ g l,
      LibCall.setSensorLimits g l ∈
        (runMain (okEnv d) ⟨some idv, Subcmd.set sm⟩).1 →
      ∃ i, l = List.replicate (d.thermalCount g) (lt.getD i 0)) := by
  have hrw := runMain_set d sm idv sel gc mc pl tl vl hsel hgc hmc hpl htl hvl
  have hgcn : sm.gpuclock = none → gc = none := by
    intro h; rw [h] at hgc; simp [parse_arg] at hgc; exact hgc.symm
  have hmcn : sm.memclock = none → mc = none := by
    intro h; rw [h] at hmc; simp [parse_arg] at hmc; exact hmc.symm
  have hpln : sm.plimit = none → pl = none := by
    intro h; rw [h] at hpl; simp [parse_arg] at hpl; exact hpl.symm
  have htln : sm.tlimit = none → tl = none := by
    intro h; rw [h] at htl; simp [parse_arg] at htl; exact htl.symm
  have hvln : sm.vlock = none → vl = none := by
    intro h; rw [h] at hvl; simp [parse_arg] at hvl; exact hvl.symm
  refine ⟨?_, ?_, ?_, ?_, ?_, ?_⟩
  · intro h0 g δ hmem
    rw [hrw] at hmem
    rcases List.mem_append.mp hmem with hm | hm
    · simp [preludeTrace] at hm
    · obtain ⟨j, hj, hm'⟩ := at_of_mem_setTrace d _ _ _ _ _ sel 0 _ hm
      rcases mem_settingCallsAt hm' with ⟨l, hl, he⟩ | ⟨l, hl, he⟩ |
        ⟨l, hl, he⟩ | ⟨l, hl, he⟩ | ⟨l, hl, he⟩
      · rw [hgcn h0] at hl; cases hl
      · simp at he
      · simp at he
      · rcases he with he | he <;> simp at he
      · simp at he
  · intro h0 g δ hmem
    rw [hrw] at hmem
    rcases List.mem_append.mp hmem with hm | hm
    · simp [preludeTrace] at hm
    · obtain ⟨j, hj, hm'⟩ := at_of_mem_setTrace d _ _ _ _ _ sel 0 _ hm
      rcases mem_settingCallsAt hm' with ⟨l, hl, he⟩ | ⟨l, hl, he⟩ |
        ⟨l, hl, he⟩ | ⟨l, hl, he⟩ | ⟨l, hl, he⟩
      · simp at he
      · rw [hmcn h0] at hl; cases hl
      · simp at he
      · rcases he with he | he <;> simp at he
      · simp at he
  · intro h0 g l0 hmem
    rw [hrw] at hmem
    rcases List.mem_append.mp hmem with hm | hm
    · simp [preludeTrace] at hm
    · obtain ⟨j, hj, hm'⟩ := at_of_mem_setTrace d _ _ _ _ _ sel 0 _ hm
      rcases mem_settingCallsAt hm' with ⟨l, hl, he⟩ | ⟨l, hl, he⟩ |
        ⟨l, hl, he⟩ | ⟨l, hl, he⟩ | ⟨l, hl, he⟩
      · simp at he
      · simp at he
      · rw [hpln h0] at hl; cases hl
      · rcases he with he | he <;> simp at he
      · simp at he
  · intro h0 g
    constructor
    · intro hmem
      rw [hrw] at hmem
      rcases List.mem_append.mp hmem with hm | hm
      · simp [preludeTrace] at hm
      · obtain ⟨j, hj, hm'⟩ := at_of_mem_setTrace d _ _ _ _ _ sel 0 _ hm
        rcases mem_settingCallsAt hm' with ⟨l, hl, he⟩ | ⟨l, hl, he⟩ |
          ⟨l, hl, he⟩ | ⟨l, hl, he⟩ | ⟨l, hl, he⟩
        · simp at he
        · simp at he
        · simp at he
        · rw [htln h0] at hl; cases hl
        · simp at he
    · intro l0 hmem
      rw [hrw] at hmem
      rcases List.mem_append.mp hmem with hm | hm
      · simp [preludeTrace] at hm
      · obtain ⟨j, hj, hm'⟩ := at_of_mem_setTrace d _ _ _ _ _ sel 0 _ hm
        rcases mem_settingCallsAt hm' with ⟨l, hl, he⟩ | ⟨l, hl, he⟩ |
          ⟨l, hl, he⟩ | ⟨l, hl, he⟩ | ⟨l, hl, he⟩
        · simp at he
        · simp at he
        · simp at he
        · rw [htln h0] at hl; cases hl
        · simp at he
  · intro h0 g v hmem
    rw [hrw] at hmem
    rcases List.mem_append.mp hmem with hm | hm
    · simp [preludeTrace] at hm
    · obtain ⟨j, hj, hm'⟩ := at_of_mem_setTrace d _ _ _ _ _ sel 0 _ hm
      rcases mem_settingCallsAt hm' with ⟨l, hl, he⟩ | ⟨l, hl, he⟩ |
        ⟨l, hl, he⟩ | ⟨l, hl, he⟩ | ⟨l, hl, he⟩
      · simp at he
      · simp at he
      · simp at he
      · rcases he with he | he <;> simp at he
      · rw [hvln h0] at hl; cases hl
  · intro lt hlt g l0 hmem
    rw [hrw] at hmem
    rcases List.mem_append.mp hmem with hm | hm
    · simp [preludeTrace] at hm
    · obtain ⟨j, hj, hm'⟩ := at_of_mem_setTrace d _ _ _ _ _ sel 0 _ hm
      rcases mem_settingCallsAt hm' with ⟨l, hl, he⟩ | ⟨l, hl, he⟩ |
        ⟨l, hl, he⟩ | ⟨l, hl, he⟩ | ⟨l, hl, he⟩
      · simp at he
      · simp at he
      · simp at he
      · rw [hlt] at hl
        have hllt : l = lt := by injection hl with h2; exact h2.symm
        subst hllt
        rcases he with he | he
        · simp at he
        · simp only [LibCall.setSensorLimits.injEq] at he
          obtain ⟨hg, hl0⟩ := he
          subst hg
          exact ⟨0 + j, hl0⟩
      · simp at he

/-- Claim C10, witness: with only `--tlimit 80` supplied (one GPU, two
thermal controllers), no clock, power or voltage call appears in the trace,
and the sensor-limit call replicates 80 across both controllers. -/
theorem c10_witness :
    (LibCall.setPstates 0 [(PState.P0, ClockDomain.Graphics, 7)] ∉
      (runMain (okEnv dev1) ⟨some ["0"],
        Subcmd.set ⟨none, none, none, some ["80"], none⟩⟩).1) ∧
    (LibCall.setPowerLimits 0 [90] ∉
      (runMain (okEnv dev1) ⟨some ["0"],
        Subcmd.set ⟨none, none, none, some ["80"], none⟩⟩).1) ∧
    (LibCall.setSensorLimits 0 [80, 80] ∈
        (runMain (okEnv dev1) ⟨some ["0"],
          Subcmd.set ⟨none, none, none, some ["80"], none⟩⟩).1 →
      ∃ i, ([80, 80] : List Int) =
        List.replicate (dev1.thermalCount 0) (([80] : List Int).getD i 0)) := by
  have h := c10_theorem dev1 ⟨none, none, none, some ["80"], none⟩ ["0"]
    [(0, 0)] none none none (some [80]) none
    (by decide) (by decide) (by decide) (by decide) (by decide) (by decide)
  exact ⟨h.1 rfl 0 7, h.2.2.1 rfl 0 [90], h.2.2.2.2.2 [80] rfl 0 [80, 80]⟩

end MicroOc
